import Mathlib

/-!
Verification development for the weather-refresh pipeline of this repository.

The Python sources are shallowly embedded:
* JSON payloads become the inductive `JVal`; Python `dict.get`, subscripting
  and truthiness become total Lean functions or `Except`-valued functions
  (an `Except.error` models a raised Python exception).
* `src/main.py`: `handle_weather_data`, `process_forecast_data`,
  `generate_activity_suggestions`, `get_eludecia_response`.
* `src/weather/schedulers/weather_updater.py`: `clean_text`,
  `generate_weather_letter`, `update_city_weather`, `update_weather_data`,
  with the database (`src/weather/models.py`) modelled as explicit lists of
  rows and Django's `update_or_create` as a list transformation.
* External collaborators (HTTP weather API, LLM API, random sampler) are
  modelled as explicit function parameters (oracles).

Modelling notes, applying throughout:
* Numbers are `ℚ`; IEEE-754 float representation issues (such as Python
  rendering `10.0` rather than `10`) are not modelled: `pyStr` renders an
  integral rational without a fractional part.
* `datetime.fromtimestamp` uses the host local timezone; we model UTC.
* Python containers' `repr` inside f-strings is abbreviated (no claim
  formats a container).
-/

namespace Webapp

/-- JSON-like values, the payload type of the OpenWeatherMap API responses. -/
inductive JVal where
  | null : JVal
  | bool : Bool → JVal
  | num : ℚ → JVal
  | str : String → JVal
  | arr : List JVal → JVal
  | obj : List (String × JVal) → JVal

/-- Lookup of a key in an object's field list (first match, as in a dict). -/
def jLookup : List (String × JVal) → String → Option JVal
  | [], _ => none
  | (k, v) :: rest, key => if k = key then some v else jLookup rest key

/-- Python truthiness of a JSON value (`if not x`). -/
def truthy : JVal → Bool
  | .null => false
  | .bool b => b
  | .num q => q != 0
  | .str s => s != ""
  | .arr xs => !xs.isEmpty
  | .obj fs => !fs.isEmpty

/-- Python `o.get(k, d)`: default on a missing key, AttributeError on a
non-dict receiver. -/
def jGetDE (o : JVal) (k : String) (d : JVal) : Except String JVal :=
  match o with
  | .obj fs => .ok ((jLookup fs k).getD d)
  | _ => .error "AttributeError"

/-- Python `o.get(k)` with no default (`None` becomes `Option.none`). -/
def jGetN (o : JVal) (k : String) : Except String (Option JVal) :=
  match o with
  | .obj fs => .ok (jLookup fs k)
  | _ => .error "AttributeError"

/-- Python subscript `o[k]`: KeyError on a missing key, TypeError on a
non-dict receiver. -/
def jIdx (o : JVal) (k : String) : Except String JVal :=
  match o with
  | .obj fs =>
    match jLookup fs k with
    | some v => .ok v
    | none => .error ("KeyError: " ++ k)
  | _ => .error "TypeError"

/-- Python subscript `o[0]` on a list: IndexError when empty.  (Python also
subscripts strings; no code path under study does, so that is collapsed to
TypeError.) -/
def jIdx0 : JVal → Except String JVal
  | .arr (x :: _) => .ok x
  | .arr [] => .error "IndexError"
  | _ => .error "TypeError"

/-- Python `k in o` for a dict receiver.  (On non-dict receivers Python `in`
means containment; the guarded code only reaches this with dicts, so non-dict
receivers are collapsed to `false`.) -/
def jHasKey (o : JVal) (k : String) : Bool :=
  match o with
  | .obj fs => (jLookup fs k).isSome
  | _ => false

/-- Coercion of a JSON value to a number; TypeError otherwise (models
`datetime.fromtimestamp`, arithmetic and numeric comparison on non-numbers). -/
def asNum : JVal → Except String ℚ
  | .num q => .ok q
  | _ => .error "TypeError"

/-- Iteration over a JSON value (`for x in v`, `len(v)`); only lists are
iterated by the code under study. -/
def asList : JVal → Except String (List JVal)
  | .arr xs => .ok xs
  | _ => .error "TypeError"

/-- Python division `v / d` (TypeError on a non-numeric left operand, which
is what `'Unknown' / 1000` raises). -/
def jDiv (o : JVal) (d : ℚ) : Except String ℚ :=
  match o with
  | .num q => .ok (q / d)
  | _ => .error "TypeError"

/-- Rendering of a rational as Python renders the corresponding int (the
float `.0` suffix is not modelled, see the header note). -/
def ratStr (q : ℚ) : String :=
  if q.den = 1 then toString q.num else toString q.num ++ "/" ++ toString q.den

/-- Python `f"{v}"` on a JSON value. -/
def pyStr : JVal → String
  | .null => "None"
  | .bool true => "True"
  | .bool false => "False"
  | .num q => ratStr q
  | .str s => s
  | .arr _ => "[...]"
  | .obj _ => "\x7b...\x7d"

/-- Round half to even, as `format(x, '.0f')` rounds. -/
def roundHalfEven (q : ℚ) : ℤ :=
  let f : ℤ := ⌊q⌋
  let r : ℚ := q - (f : ℚ)
  if r < 1 / 2 then f
  else if 1 / 2 < r then f + 1
  else if f % 2 = 0 then f else f + 1

/-- Python `f"{x:.0f}"`. -/
def formatF0 (q : ℚ) : String := toString (roundHalfEven q)

/-- Zero-padded two-digit rendering of a non-negative integer. -/
def pad2 (n : ℤ) : String := if n < 10 then "0" ++ toString n else toString n

/-- Hour-of-day of an epoch timestamp (UTC model of
`datetime.fromtimestamp(t).hour`). -/
def hourOfDay (q : ℚ) : ℤ := (⌊q / 3600⌋ : ℤ) % 24

/-- UTC model of `datetime.fromtimestamp(t).strftime('%H:%M')`. -/
def hmFmt (q : ℚ) : String :=
  pad2 ((⌊q / 3600⌋ : ℤ) % 24) ++ ":" ++ pad2 ((⌊q / 60⌋ : ℤ) % 60)

/-- UTC model of `datetime.fromtimestamp(t).strftime('%H:%M:%S')`. -/
def hmsFmt (q : ℚ) : String :=
  hmFmt q ++ ":" ++ pad2 ((⌊q⌋ : ℤ) % 60)

/-- Gregorian civil date from a day count since 1970-01-01 (standard
civil-from-days algorithm). -/
def civilFromDays (z0 : ℤ) : ℤ × ℤ × ℤ :=
  let z := z0 + 719468
  let era := z / 146097 - (if z % 146097 < 0 then 1 else 0)
  let doe := z - era * 146097
  let yoe := (doe - doe / 1460 + doe / 36524 - doe / 146096) / 365
  let y := yoe + era * 400
  let doy := doe - (365 * yoe + yoe / 4 - yoe / 100)
  let mp := (5 * doy + 2) / 153
  let d := doy - (153 * mp + 2) / 5 + 1
  let m := mp + (if mp < 10 then 3 else -9)
  (y + (if m ≤ 2 then 1 else 0), m, d)

/-- UTC model of `datetime.fromtimestamp(t).strftime('%Y-%m-%d %H:%M:%S')`. -/
def ymdhmsFmt (q : ℚ) : String :=
  let days : ℤ := ⌊q / 86400⌋
  let c := civilFromDays days
  toString c.1 ++ "-" ++ pad2 c.2.1 ++ "-" ++ pad2 c.2.2 ++ " " ++ hmsFmt q

/-- Characters stripped by Python's `str.strip()` family. -/
def isPySpace (c : Char) : Bool :=
  c == ' ' || c == '\t' || c == '\n' || c == '\r' || c == '\x0b' || c == '\x0c'

/-- Python `str.lstrip()` on character lists. -/
def pyLstrip (l : List Char) : List Char := l.dropWhile isPySpace

/-- Python `str.strip()` on character lists. -/
def pyStripL (l : List Char) : List Char :=
  ((pyLstrip l).reverse.dropWhile isPySpace).reverse

/-- Python `str.strip()` on strings. -/
def pyStripS (s : String) : String := String.mk (pyStripL s.data)

/-- Python `str.lower()` (ASCII model). -/
def pyLower (s : String) : String := String.mk (s.data.map Char.toLower)

/-- Python `str.capitalize()` (first character uppercased, rest lowered). -/
def pyCapitalize (s : String) : String :=
  match s.data with
  | [] => ""
  | c :: rest => String.mk (c.toUpper :: rest.map Char.toLower)

/-- Python `str.startswith`. -/
def pyStartsWith (s pre : String) : Bool := pre.data.isPrefixOf s.data

/-- Substring search on character lists (Python `needle in hay`). -/
def listHasSub (pat : List Char) : List Char → Bool
  | [] => pat.isEmpty
  | c :: rest => pat.isPrefixOf (c :: rest) || listHasSub pat rest

/-- Python substring test `needle in hay`. -/
def pyIn (needle hay : String) : Bool := listHasSub needle.data hay.data

/-!
String-rewriting primitives used by `clean_text`
(`src/weather/schedulers/weather_updater.py`).  Each scans left to right and
is written with an explicit fuel argument (one unit per consumed character)
so that it is structurally recursive; the wrapper passes `l.length` fuel,
which is always sufficient because every step consumes at least one
character.
-/

/-- Python `str.replace(pat, rep)`: leftmost non-overlapping occurrences. -/
def pyReplaceAux (pat rep : List Char) : Nat → List Char → List Char
  | 0, l => l
  | _ + 1, [] => []
  | fuel + 1, c :: rest =>
    if !pat.isEmpty && pat.isPrefixOf (c :: rest) then
      rep ++ pyReplaceAux pat rep fuel ((c :: rest).drop pat.length)
    else
      c :: pyReplaceAux pat rep fuel rest

/-- Python `str.replace(pat, rep)` (for non-empty `pat`, the only use). -/
def pyReplace (pat rep l : List Char) : List Char := pyReplaceAux pat rep l.length l

/-- The regex substitution `re.sub(' +', ' ', text)`: collapse every run of
spaces to a single space. -/
def collapseSpacesAux : Nat → List Char → List Char
  | 0, l => l
  | _ + 1, [] => []
  | fuel + 1, c :: rest =>
    if c = ' ' then ' ' :: collapseSpacesAux fuel (rest.dropWhile (· == ' '))
    else c :: collapseSpacesAux fuel rest

/-- Collapse space runs (`re.sub(' +', ' ', text)`). -/
def collapseSpaces (l : List Char) : List Char := collapseSpacesAux l.length l

/-- The regex substitution `re.sub(r'\n\s+', '\n', text)`: a newline followed
by a maximal non-empty whitespace run becomes a single newline. -/
def nlWsAux : Nat → List Char → List Char
  | 0, l => l
  | _ + 1, [] => []
  | fuel + 1, c :: rest =>
    if c = '\n' then
      match rest with
      | [] => ['\n']
      | d :: _ =>
        if isPySpace d then '\n' :: nlWsAux fuel (rest.dropWhile isPySpace)
        else '\n' :: nlWsAux fuel rest
    else c :: nlWsAux fuel rest

/-- Normalize whitespace after newlines (`re.sub(r'\n\s+', '\n', text)`). -/
def nlWs (l : List Char) : List Char := nlWsAux l.length l

/-- Suffix following the first occurrence of three backticks, if any. -/
def findFenceEnd : List Char → Option (List Char)
  | [] => none
  | c :: rest =>
    if ("```".data).isPrefixOf (c :: rest) then some ((c :: rest).drop 3)
    else findFenceEnd rest

/-- The regex substitution `re.sub(r'```[\s\S]*?```', '', text)`: delete each
lazily-matched fenced block, scanning left to right. -/
def removeFencesAux : Nat → List Char → List Char
  | 0, l => l
  | _ + 1, [] => []
  | fuel + 1, c :: rest =>
    if ("```".data).isPrefixOf (c :: rest) then
      match findFenceEnd ((c :: rest).drop 3) with
      | some rem => removeFencesAux fuel rem
      | none => c :: removeFencesAux fuel rest
    else c :: removeFencesAux fuel rest

/-- Remove fenced code blocks (`re.sub(r'```[\s\S]*?```', '', text)`). -/
def removeFences (l : List Char) : List Char := removeFencesAux l.length l

/-- Line splitting, Python `text.split('\n')`. -/
def splitNl : List Char → List (List Char)
  | [] => [[]]
  | c :: rest =>
    if c = '\n' then [] :: splitNl rest
    else
      match splitNl rest with
      | [] => [[c]]
      | h :: t => (c :: h) :: t

/-- Heading-marker conversion of one already-stripped line (`# `, `## `,
`### ` prefixes dropped), from the loop of `clean_text`. -/
def headingLine (l : List Char) : List Char :=
  let l := pyStripL l
  if ("# ".data).isPrefixOf l then l.drop 2
  else if ("## ".data).isPrefixOf l then l.drop 3
  else if ("### ".data).isPrefixOf l then l.drop 4
  else l

/-- The narrative sanitizer `clean_text` of
`src/weather/schedulers/weather_updater.py`, in the source's step order. -/
def clean_text (s : String) : String :=
  let t := pyStripL s.data
  let t := pyReplace "**".data [] t
  let t := pyReplace "*".data [] t
  let t := List.intercalate ['\n'] ((splitNl t).map headingLine)
  let t := collapseSpaces t
  let t := nlWs t
  let t := pyLstrip t
  let t := List.intercalate ['\n'] ((splitNl t).map pyLstrip)
  let t := removeFences t
  String.mk t

/-!
Forecast aggregation: `handle_weather_data` and `process_forecast_data` from
`src/main.py`.  Both consume raw JSON payloads; a raised Python exception is
an `Except.error`, and a Python `return None` is `Option.none`.
-/

/-- Result record of `handle_weather_data` (the `weather_info` dict of
`src/main.py`, with its keys as fields, values already f-string formatted). -/
structure WeatherInfo where
  location : String
  temperature : String
  temperature_range : String
  weather_type : String
  current_time : String
  daylight : String
  humidity : String
  pressure : String
  wind : String
  visibility : String
deriving DecidableEq

/-- Python `v.capitalize()`: AttributeError unless the value is a string. -/
def jCapitalize : JVal → Except String String
  | .str s => .ok (pyCapitalize s)
  | _ => .error "AttributeError"

/-- The `handle_weather_data` function of `src/main.py` (lines 112-158),
statement by statement in source order.  `.get` calls use `jGetDE`/`jGetN`,
bare subscripts use `jIdx` (KeyError), and `'Unknown' / 1000` surfaces as the
TypeError of `jDiv`. -/
def handle_weather_data (weather_data : JVal) : Except String (Option WeatherInfo) := do
  if !truthy weather_data || !jHasKey weather_data "main" then
    return none
  let location ← jGetDE weather_data "name" (.str "Unknown location")
  let sys0 ← jGetDE weather_data "sys" (.obj [])
  let _country ← jGetDE sys0 "country" (.str "")
  let main0 ← jIdx weather_data "main"
  let current_temperature ← jIdx main0 "temp"
  let temp_min ← jIdx main0 "temp_min"
  let temp_max ← jIdx main0 "temp_max"
  let feels_like ← jIdx main0 "feels_like"
  let wArr ← jGetDE weather_data "weather" (.arr [.obj []])
  let w0 ← jIdx0 wArr
  let weather_type ← jGetDE w0 "main" (.str "unknown")
  let weather_description ← jGetDE w0 "description" (.str "unknown")
  let humidity ← jIdx main0 "humidity"
  let pressure ← jIdx main0 "pressure"
  let wind0 ← jGetDE weather_data "wind" (.obj [])
  let wind_speed ← jGetDE wind0 "speed" (.str "Unknown")
  let wind_direction ← jGetDE wind0 "deg" (.str "Unknown")
  let visV ← jGetDE weather_data "visibility" (.str "Unknown")
  let visibility ← jDiv visV 1000
  let dt_timestamp ← jGetN weather_data "dt"
  let sunrise_timestamp ← jGetN sys0 "sunrise"
  let sunset_timestamp ← jGetN sys0 "sunset"
  let current_time ←
    match dt_timestamp with
    | some v => if truthy v then do pure (ymdhmsFmt (← asNum v)) else pure "Unknown"
    | none => pure "Unknown"
  let sunrise_time ←
    match sunrise_timestamp with
    | some v => if truthy v then do pure (hmsFmt (← asNum v)) else pure "Unknown"
    | none => pure "Unknown"
  let sunset_time ←
    match sunset_timestamp with
    | some v => if truthy v then do pure (hmsFmt (← asNum v)) else pure "Unknown"
    | none => pure "Unknown"
  let wt ← jCapitalize weather_type
  pure (some
    { location := pyStr location
      temperature := pyStr current_temperature ++ "°C (feels like " ++ pyStr feels_like ++ "°C)"
      temperature_range := "Min: " ++ pyStr temp_min ++ "°C, Max: " ++ pyStr temp_max ++ "°C"
      weather_type := wt ++ ": " ++ pyStr weather_description
      current_time := current_time
      daylight := "Sunrise-" ++ sunrise_time ++ ", Sunset-" ++ sunset_time
      humidity := pyStr humidity ++ "%"
      pressure := pyStr pressure ++ " hPa"
      wind := pyStr wind_speed ++ " m/s, direction " ++ pyStr wind_direction ++ "°"
      visibility := pyStr (.num visibility) ++ " km" })

/-- The nine fixed `time_slots` of `process_forecast_data`. -/
def time_slots : List (String × ℤ) :=
  [("morning_6", 6), ("morning_8", 8), ("morning_10", 10),
   ("afternoon_12", 12), ("afternoon_14", 14), ("afternoon_16", 16),
   ("evening_18", 18), ("evening_20", 20), ("evening_22", 22)]

/-- Python dict assignment `m[k] = v`: overwrite in place, else append
(insertion order preserved). -/
def dictSet (m : List (String × JVal)) (k : String) (v : JVal) : List (String × JVal) :=
  match m with
  | [] => [(k, v)]
  | (k2, v2) :: rest => if k2 = k then (k2, v) :: rest else (k2, v2) :: dictSet rest k v

/-- The three `hourly_forecasts` assignments done for a matched slot. -/
def slotAssign (m : List (String × JVal)) (slot_name : String) (hour_temp : JVal)
    (hour_pop : ℚ) (hour_weather : JVal) : List (String × JVal) :=
  dictSet
    (dictSet
      (dictSet m (slot_name ++ "_temp") (.str (pyStr hour_temp ++ "°C")))
      (slot_name ++ "_precip") (.str (formatF0 hour_pop ++ "%")))
    (slot_name ++ "_weather") hour_weather

/-- Accumulator of the hourly loop of `process_forecast_data`: the
`hourly_forecasts` dict and the running precipitation maximum with its
formatted time.  (The Python-level `max_precip_hour` variable is written but
never read and is therefore not carried.) -/
structure HState where
  slots : List (String × JVal)
  maxP : ℚ
  maxT : String

/-- Slot processing for one `(slot_name, slot_hour)` pair and one hourly
sample (the inner `for slot_name, slot_hour in time_slots.items()` body). -/
def slotBodyE (h : JVal) (hod : ℤ) (m : List (String × JVal)) (sl : String × ℤ) :
    Except String (List (String × JVal)) :=
  if hod = sl.2 then do
    let hour_temp ← jGetDE h "temp" (.str "Unknown")
    let popV ← jGetDE h "pop" (.num 0)
    let hour_pop ← asNum popV
    let wArr ← jGetDE h "weather" (.arr [.obj []])
    let w0 ← jIdx0 wArr
    let hour_weather ← jGetDE w0 "main" (.str "Unknown")
    pure (slotAssign m sl.1 hour_temp (hour_pop * 100) hour_weather)
  else pure m

/-- One iteration of the hourly loop (`for hour in hourly`, lines 213-234):
slot recording, then the running-maximum precipitation update with its
strict `>` comparison. -/
def hourStepE (st : HState) (h : JVal) : Except String HState := do
  let dtV ← jGetDE h "dt" (.num 0)
  let dtQ ← asNum dtV
  let hod := hourOfDay dtQ
  let slots ← time_slots.foldlM (slotBodyE h hod) st.slots
  let popV ← jGetDE h "pop" (.num 0)
  let pop ← asNum popV
  let pop := pop * 100
  if pop > st.maxP then
    pure { slots := slots, maxP := pop, maxT := hmFmt dtQ }
  else
    pure { slots := slots, maxP := st.maxP, maxT := st.maxT }

/-- The whole hourly loop (initial state: empty dict, `max_precip = 0`,
`max_precip_time = "None"`). -/
def processHourly (hourly : List JVal) : Except String HState :=
  hourly.foldlM hourStepE { slots := [], maxP := 0, maxT := "None" }

/-- Weather category of one hourly sample
(`hour.get('weather', [{}])[0].get('main', 'Unknown')`). -/
def hourCat (h : JVal) : Except String JVal := do
  let wArr ← jGetDE h "weather" (.arr [.obj []])
  let w0 ← jIdx0 wArr
  jGetDE w0 "main" (.str "Unknown")

/-- Occurrence count of a key in the tally dict (first matching entry). -/
def cnt : List (String × Nat) → String → Nat
  | [], _ => 0
  | (k, n) :: rest, c => if k = c then n else cnt rest c

/-- Python `weather_counts[w] = weather_counts.get(w, 0) + 1`. -/
def tallyAdd (m : List (String × Nat)) (k : String) : List (String × Nat) :=
  match m with
  | [] => [(k, 1)]
  | (k2, n) :: rest => if k2 = k then (k2, n + 1) :: rest else (k2, n) :: tallyAdd rest k

/-- Building the ordered `weather_counts` dict over a category list. -/
def tally (l : List String) : List (String × Nat) := l.foldl tallyAdd []

/-- Python `max(items, key=lambda x: x[1])`: the first item of maximal count
in iteration order (later items replace only on a strictly greater count). -/
def pyMaxGo (best : String × Nat) : List (String × Nat) → String × Nat
  | [] => best
  | p :: rest => if p.2 > best.2 then pyMaxGo p rest else pyMaxGo best rest

/-- The dominant-category computation over a category list (lines 237-242 of
`src/main.py`): ordered tally, then `max(..., key=...)`, `'Unknown'` when
empty. -/
def dominantOfCats (cats : List String) : String :=
  match tally cats with
  | [] => "Unknown"
  | p :: rest => (pyMaxGo p rest).1

/-- The dominant-category loop over raw hourly samples (the caller passes
`hourly[:24]`); non-string categories are rendered by `pyStr` when used as
dict keys would be compared — the code under study only ever produces string
categories, and `asCatKey` keeps raw strings unchanged. -/
def asCatKey : JVal → String
  | .str s => s
  | v => pyStr v

/-- Dominant weather type of the first-24-hours window. -/
def dominantOf (window : List JVal) : Except String String := do
  let cats ← window.mapM hourCat
  pure (dominantOfCats (cats.map asCatKey))

/-- Daily min/max extraction (lines 198-205): defaults 100 / -100, then the
first daily entry's `temp.min` / `temp.max` when a daily entry exists. -/
def dailyMinMax : List JVal → Except String (JVal × JVal)
  | [] => .ok (.num 100, .num (-100))
  | today :: _ => do
    let t ← jGetDE today "temp" (.obj [])
    let mn ← jGetDE t "min" (.num 100)
    let mx ← jGetDE t "max" (.num (-100))
    pure (mn, mx)

/-- Result record of `process_forecast_data` (the `forecast_info` dict of
`src/main.py`; `hourly_forecasts` holds the dynamically-added slot keys which
Python merges into the same dict via `forecast_info.update`). -/
structure ForecastInfo where
  weather_type : String
  weather_temperature : String
  weather_temperature_range : String
  weather_humidity : String
  weather_pressure : String
  weather_wind : String
  weather_visibility : String
  weather_uvi : String
  weather_clouds : String
  weather_daylight : String
  temp_min : String
  temp_max : String
  max_precip : String
  max_precip_time : String
  weather_main_type : String
  hourly_forecasts : List (String × JVal)

/-- The `process_forecast_data` function of `src/main.py` (lines 160-267) in
source order: current-conditions block, daily min/max, hourly loop, dominant
category, then dict assembly. -/
def process_forecast_data (forecast_data : JVal) : Except String (Option ForecastInfo) := do
  if !truthy forecast_data then
    return none
  let current ← jGetDE forecast_data "current" (.obj [])
  let hourlyV ← jGetDE forecast_data "hourly" (.arr [])
  let hourly ← asList hourlyV
  let dailyV ← jGetDE forecast_data "daily" (.arr [])
  let daily ← asList dailyV
  let current_temp ← jGetDE current "temp" (.str "Unknown")
  let feels_like ← jGetDE current "feels_like" (.str "Unknown")
  let humidity ← jGetDE current "humidity" (.str "Unknown")
  let pressure ← jGetDE current "pressure" (.str "Unknown")
  let wind_speed ← jGetDE current "wind_speed" (.str "Unknown")
  let wind_direction ← jGetDE current "wind_deg" (.str "Unknown")
  let visibility ←
    if jHasKey current "visibility" then do
      let v ← jGetDE current "visibility" (.str "Unknown")
      pure (JVal.num (← jDiv v 1000))
    else pure (JVal.str "Unknown")
  let uvi ← jGetDE current "uvi" (.str "Unknown")
  let clouds ← jGetDE current "clouds" (.str "Unknown")
  let wArr ← jGetDE current "weather" (.arr [.obj []])
  let w0 ← jIdx0 wArr
  let weather_type ← jGetDE w0 "main" (.str "unknown")
  let weather_description ← jGetDE w0 "description" (.str "unknown")
  let sunrise ←
    if jHasKey current "sunrise" then do
      let v ← jGetDE current "sunrise" (.num 0)
      pure (hmsFmt (← asNum v))
    else pure "Unknown"
  let sunset ←
    if jHasKey current "sunset" then do
      let v ← jGetDE current "sunset" (.num 0)
      pure (hmsFmt (← asNum v))
    else pure "Unknown"
  let tmm ← dailyMinMax daily
  let st ← processHourly hourly
  let weather_main_type ← dominantOf (hourly.take 24)
  let wt ← jCapitalize weather_type
  pure (some
    { weather_type := wt ++ ": " ++ pyStr weather_description
      weather_temperature := pyStr current_temp ++ "°C (feels like " ++ pyStr feels_like ++ "°C)"
      weather_temperature_range := "Min: " ++ pyStr tmm.1 ++ "°C, Max: " ++ pyStr tmm.2 ++ "°C"
      weather_humidity := pyStr humidity ++ "%"
      weather_pressure := pyStr pressure ++ " hPa"
      weather_wind := pyStr wind_speed ++ " m/s, direction " ++ pyStr wind_direction ++ "°"
      weather_visibility := pyStr visibility ++ " km"
      weather_uvi := pyStr uvi
      weather_clouds := pyStr clouds ++ "%"
      weather_daylight := "Sunrise-" ++ sunrise ++ ", Sunset-" ++ sunset
      temp_min := pyStr tmm.1
      temp_max := pyStr tmm.2
      max_precip := formatF0 st.maxP
      max_precip_time := st.maxT
      weather_main_type := weather_main_type
      hourly_forecasts := st.slots })

/-!
Structured forecast payloads.  The claims quantify over hourly-sample
sequences and daily entries; `mkHour`/`mkDaily`/`mkForecast` build the
corresponding provider-shaped JSON payloads consumed by
`process_forecast_data`.
-/

/-- One hourly forecast sample: epoch timestamp, temperature, precipitation
probability (0..1 scale as delivered by the provider) and weather category. -/
structure HSample where
  dt : ℚ
  temp : ℚ
  pop : ℚ
  cat : String
deriving DecidableEq

/-- One daily forecast entry: min and max temperature. -/
structure DSample where
  tmin : ℚ
  tmax : ℚ
deriving DecidableEq

/-- Provider-shaped JSON for one hourly sample. -/
def mkHour (s : HSample) : JVal :=
  .obj [("dt", .num s.dt), ("temp", .num s.temp), ("pop", .num s.pop),
        ("weather", .arr [.obj [("main", .str s.cat)]])]

/-- Provider-shaped JSON for one daily entry. -/
def mkDaily (d : DSample) : JVal :=
  .obj [("temp", .obj [("min", .num d.tmin), ("max", .num d.tmax)])]

/-- Provider-shaped One Call payload with the given hourly and daily arrays. -/
def mkForecast (hs : List HSample) (ds : List DSample) : JVal :=
  .obj [("hourly", .arr (hs.map mkHour)), ("daily", .arr (ds.map mkDaily))]

/-- Pure counterpart of `slotBodyE` on a structured sample. -/
def slotBodyP (s : HSample) (hod : ℤ) (m : List (String × JVal)) (sl : String × ℤ) :
    List (String × JVal) :=
  if hod = sl.2 then slotAssign m sl.1 (.num s.temp) (s.pop * 100) (.str s.cat) else m

/-- Pure counterpart of `hourStepE` on a structured sample. -/
def hourStepP (st : HState) (s : HSample) : HState :=
  let hod := hourOfDay s.dt
  let slots := time_slots.foldl (slotBodyP s hod) st.slots
  if s.pop * 100 > st.maxP then
    { slots := slots, maxP := s.pop * 100, maxT := hmFmt s.dt }
  else
    { slots := slots, maxP := st.maxP, maxT := st.maxT }

/-- Initial hourly-loop state. -/
def initHState : HState := { slots := [], maxP := 0, maxT := "None" }

/-- Running precipitation maximum (×100) over a structured sample list. -/
def peakOf (hs : List HSample) : ℚ := (hs.foldl hourStepP initHState).maxP

/-- Recorded peak time over a structured sample list. -/
def peakTimeOf (hs : List HSample) : String := (hs.foldl hourStepP initHState).maxT

/-- Pure summary of `process_forecast_data` on a structured payload (proved
equal to the embedded function on `mkForecast` payloads below). -/
def mkSummary (hs : List HSample) (ds : List DSample) : ForecastInfo :=
  let st := hs.foldl hourStepP initHState
  let tmm : JVal × JVal :=
    match ds with
    | [] => (.num 100, .num (-100))
    | d :: _ => (.num d.tmin, .num d.tmax)
  { weather_type := "Unknown: unknown"
    weather_temperature := "Unknown°C (feels like Unknown°C)"
    weather_temperature_range := "Min: " ++ pyStr tmm.1 ++ "°C, Max: " ++ pyStr tmm.2 ++ "°C"
    weather_humidity := "Unknown%"
    weather_pressure := "Unknown hPa"
    weather_wind := "Unknown m/s, direction Unknown°"
    weather_visibility := "Unknown km"
    weather_uvi := "Unknown"
    weather_clouds := "Unknown%"
    weather_daylight := "Sunrise-Unknown, Sunset-Unknown"
    temp_min := pyStr tmm.1
    temp_max := pyStr tmm.2
    max_precip := formatF0 st.maxP
    max_precip_time := st.maxT
    weather_main_type := dominantOfCats ((hs.take 24).map HSample.cat)
    hourly_forecasts := st.slots }

/-- The `temp_min` entry of a `process_forecast_data` result (empty string
when the function did not return a summary). -/
def sTempMin : Except String (Option ForecastInfo) → String
  | .ok (some s) => s.temp_min
  | _ => ""

/-- The `temp_max` entry of a `process_forecast_data` result. -/
def sTempMax : Except String (Option ForecastInfo) → String
  | .ok (some s) => s.temp_max
  | _ => ""

/-- The `weather_main_type` entry of a `process_forecast_data` result. -/
def sMainType : Except String (Option ForecastInfo) → String
  | .ok (some s) => s.weather_main_type
  | _ => ""

/-- The `max_precip` entry of a `process_forecast_data` result. -/
def sMaxPrecip : Except String (Option ForecastInfo) → String
  | .ok (some s) => s.max_precip
  | _ => ""

/-- The `max_precip_time` entry of a `process_forecast_data` result. -/
def sMaxPrecipTime : Except String (Option ForecastInfo) → String
  | .ok (some s) => s.max_precip_time
  | _ => ""

/-- Occurrence count of a category in a list (spec-level counting). -/
def cntL : List String → String → Nat
  | [], _ => 0
  | x :: rest, c => (if x = c then 1 else 0) + cntL rest c

/-- Index of the first occurrence of a category in a list (length when
absent). -/
def firstIdx : List String → String → Nat
  | [], _ => 0
  | x :: rest, c => if x = c then 0 else firstIdx rest c + 1

/-- Maximal occurrence count over a category list. -/
def maxCount (l : List String) : Nat := (l.map (cntL l)).foldr max 0

/-- Modelled from the spec: the tie-break rule claimed for the dominant
category — scan the samples chronologically keeping running counts, and the
winner is the first category whose running count reaches the global maximal
count (claim C3's "first category reaching the maximum count as samples are
scanned in chronological order"). -/
def specFirstToReachMaxGo (m : Nat) (acc : List String) : List String → Option String
  | [] => none
  | x :: rest =>
    if cntL (acc ++ [x]) x = m then some x
    else specFirstToReachMaxGo m (acc ++ [x]) rest

/-- Modelled from the spec: entry point of the claimed tie-break scan. -/
def specFirstToReachMax (l : List String) : Option String :=
  specFirstToReachMaxGo (maxCount l) [] l

/-!
Suggestion selector: `generate_activity_suggestions` of `src/main.py`
(lines 269-419).  The function reads `weather_main_type`, `temp_min`,
`temp_max` and `max_precip` from the summary dict and parses the numeric
strings with `float(...)`; we model those parsed values directly as `ℚ`
parameters.  `random.sample(suggestions, 3)` is modelled by an explicit
sampler oracle passed as a function parameter.
-/

/-- The candidate pool assembled by `generate_activity_suggestions`,
mirroring the source's nesting: one weather-bucket branch chain per language
family, then the temperature extras (an `if`/`elif`, so at most one) and the
precipitation extra. -/
def suggestionPool (weather_type : String) (temp_min temp_max max_precip : ℚ)
    (language : String) : List String :=
  if pyStartsWith language "zh" then
    (if pyIn "clear" weather_type || weather_type == "sun" then
      ["<li>晴朗的天气非常适合户外活动，如远足、野餐或公园漫步。</li>",
       "<li>在阳光下活动时，请记得涂抹防晒霜并多喝水。</li>",
       "<li>今天是拍摄户外照片的绝佳时机！</li>"]
    else if pyIn "cloud" weather_type then
      ["<li>多云天气适合轻度户外活动，如散步、慢跑或骑自行车。</li>",
       "<li>这是参观博物馆、美术馆或购物中心的好时机。</li>",
       "<li>多云天气下的摄影也很有质感，试试抓拍云朵变化！</li>"]
    else if pyIn "rain" weather_type then
      ["<li>雨天最适合室内活动，可以访问博物馆、电影院或咖啡厅。</li>",
       "<li>如需外出，请携带雨伞或穿着防水外套。</li>",
       "<li>这是在家享受阅读或看电影的好时机。</li>"]
    else if pyIn "snow" weather_type then
      ["<li>雪天适合冬季运动，如滑雪、雪橇或堆雪人。</li>",
       "<li>外出时请穿着保暖衣物，注意路面可能湿滑。</li>",
       "<li>这是在家享受热饮和温暖活动的好时机。</li>"]
    else if pyIn "thunder" weather_type || pyIn "storm" weather_type then
      ["<li>雷暴天气请尽量避免户外活动，留在室内安全地方。</li>",
       "<li>确保电子设备已充电，以防停电。</li>",
       "<li>这是在家享受阅读或娱乐活动的好时机。</li>"]
    else if pyIn "fog" weather_type || pyIn "mist" weather_type then
      ["<li>雾天驾驶请减速并打开车灯，保持安全距离。</li>",
       "<li>适合近距离活动，避免长途旅行。</li>",
       "<li>雾天氛围独特，摄影爱好者可以捕捉迷人景色。</li>"]
    else
      ["<li>请根据实时天气状况调整您的活动计划。</li>",
       "<li>出门前检查最新天气预报。</li>",
       "<li>随时准备适合当天天气的服装和装备。</li>"])
    ++ (if temp_max > 30 then
          ["<li>高温天气请避免剧烈运动，多喝水并寻找阴凉处。</li>"]
        else if temp_min < 5 then
          ["<li>低温天气请穿着保暖衣物，特别是保护头部、手部和脚部。</li>"]
        else [])
    ++ (if max_precip > 50 then
          ["<li>有较高降水可能，外出请携带雨具。</li>"]
        else [])
  else
    (if pyIn "clear" weather_type || weather_type == "sun" then
      ["<li>Perfect weather for outdoor activities like hiking, picnics, or walks in the park.</li>",
       "<li>Remember to apply sunscreen and stay hydrated when out in the sun.</li>",
       "<li>Great day for outdoor photography!</li>"]
    else if pyIn "cloud" weather_type then
      ["<li>Cloudy weather is good for light outdoor activities like walking, jogging, or cycling.</li>",
       "<li>Good time to visit museums, art galleries, or shopping centers.</li>",
       "<li>Cloudy days offer great lighting for photography without harsh shadows.</li>"]
    else if pyIn "rain" weather_type then
      ["<li>Rainy weather is perfect for indoor activities - visit museums, cinemas, or cafes.</li>",
       "<li>If you need to go out, carry an umbrella or wear a waterproof jacket.</li>",
       "<li>Great time for reading or movie watching at home.</li>"]
    else if pyIn "snow" weather_type then
      ["<li>Snow weather is great for winter sports like skiing, sledding, or building snowmen.</li>",
       "<li>Wear warm layers when going outside and be cautious of slippery surfaces.</li>",
       "<li>Perfect time for warm drinks and cozy activities at home.</li>"]
    else if pyIn "thunder" weather_type || pyIn "storm" weather_type then
      ["<li>During thunderstorms, avoid outdoor activities and stay inside a safe building.</li>",
       "<li>Ensure electronic devices are charged in case of power outages.</li>",
       "<li>Great time for indoor reading or entertainment.</li>"]
    else if pyIn "fog" weather_type || pyIn "mist" weather_type then
      ["<li>Drive slowly with lights on during foggy conditions and maintain safe distances.</li>",
       "<li>Better for close-to-home activities, avoid long-distance travel if possible.</li>",
       "<li>Fog creates unique atmospheres for photographers to capture.</li>"]
    else
      ["<li>Adjust your activities according to the current weather conditions.</li>",
       "<li>Check the latest forecast before heading out.</li>",
       "<li>Be prepared with appropriate clothing and gear for the day\x27s weather.</li>"])
    ++ (if temp_max > 30 then
          ["<li>Avoid strenuous activities in high temperatures, stay hydrated, and seek shade.</li>"]
        else if temp_min < 5 then
          ["<li>Dress warmly in cold temperatures, especially protecting your head, hands, and feet.</li>"]
        else [])
    ++ (if max_precip > 50 then
          ["<li>High chance of precipitation, bring rain gear when going out.</li>"]
        else [])

/-- The generic localized padding filler of `generate_activity_suggestions`. -/
def suggestionFiller (language : String) : String :=
  if pyStartsWith language "zh" then "<li>请根据天气状况做好相应准备。</li>"
  else "<li>Be prepared according to weather conditions.</li>"

/-- Enumeration `for i, suggestion in enumerate(selected_suggestions, 1)`
producing the `activity_suggestion_i` keys. -/
def numberKeysFrom (i : Nat) : List String → List (String × String)
  | [] => []
  | s :: rest => ("activity_suggestion_" ++ toString i, s) :: numberKeysFrom (i + 1) rest

/-- The `generate_activity_suggestions` function of `src/main.py`:
bucket-based pool assembly, `random.sample` (the `sample` oracle) when the
pool exceeds 3, numbered dict assembly, and the padding loop
`range(len(selected_suggestions) + 1, 4)`. -/
def generate_activity_suggestions (sample : List String → List String)
    (weather_main_type : String) (temp_min temp_max max_precip : ℚ)
    (language : String) : List (String × String) :=
  let weather_type := pyLower weather_main_type
  let suggestions := suggestionPool weather_type temp_min temp_max max_precip language
  let selected_suggestions := if 3 < suggestions.length then sample suggestions else suggestions
  numberKeysFrom 1 selected_suggestions ++
    (List.range' (selected_suggestions.length + 1) (3 - selected_suggestions.length)).map
      (fun i => ("activity_suggestion_" ++ toString i, suggestionFiller language))

/-- Contract of the `random.sample(pool, 3)` oracle: whenever the pool has
more than 3 candidates, the sampler returns exactly 3 of them. -/
def sampleContract (sample : List String → List String) : Prop :=
  ∀ l : List String, 3 < l.length → (sample l).length = 3 ∧ ∀ s ∈ sample l, s ∈ l

/-- HTML list-item shape: starts with `<li>` and ends with `</li>`. -/
def isLi (s : String) : Bool :=
  ("<li>".data).isPrefixOf s.data && ("</li>".data).isSuffixOf s.data

/-!
Narrative generators.  `get_eludecia_response` (`src/main.py`, lines
421-488) and `generate_weather_letter`
(`src/weather/schedulers/weather_updater.py`, lines 133-243).  The blocking
text-generation API call is an oracle parameter returning
`Except String String` (`Except.error` models a raised exception, a timeout
or an error status); prompt construction feeding the oracle is kept, since
`generate_weather_letter`'s prompt extraction can itself raise on malformed
weather payloads (it runs outside the `try` block).
-/

/-- Lookup in a string-valued dict with default (`d.get(k, default)`). -/
def lookupS : List (String × String) → String → Option String
  | [], _ => none
  | (k, v) :: rest, key => if k = key then some v else lookupS rest key

/-- The `weather_type` extraction of `get_eludecia_response` (line 438):
`weather_info.get('weather_type', '').split(':')[0].strip()` when the dict is
truthy, `'current'` otherwise. -/
def eludecia_weather_type (weather_info : List (String × String)) : String :=
  if weather_info.isEmpty then "current"
  else pyStripS ((((lookupS weather_info "weather_type").getD "").splitOn ":").headD "")

/-- The `get_eludecia_response` function of `src/main.py`: the
configuration-missing early return, then the API call; any exception from
the call is recovered as the category-referencing fallback string of lines
485-488.  The `configured` flag models `api_key and base_url` being present;
`llmResult` is the collaborator-call outcome. -/
def get_eludecia_response (weather_info : List (String × String)) (configured : Bool)
    (llmResult : Except String String) : String :=
  let weather_type := eludecia_weather_type weather_info
  if !configured then
    "DeepSeek API configuration missing. Unable to generate Eludecia\x27s response."
  else
    match llmResult with
    | .ok content => content
    | .error _ =>
      "Sorry, I\x27m unable to provide a personalized weather description for " ++
        pyLower weather_type ++ " weather at the moment."

/-- A weather-reporter character (`Character` model of
`src/weather/models.py`). -/
structure Character where
  name : String
  description : String
  avatar_color : String
deriving DecidableEq

/-- Default character description used by `generate_weather_letter` when the
character carries none. -/
def default_character_description : String :=
  "A reformed succubus who has pledged herself to a holy order, constantly balancing between her demonic nature and righteous path. She speaks with both seductive charm and noble virtue when discussing the weather."

/-- The weather-data bullet block of `generate_weather_letter`'s user prompt
(lines 146-156 extract the fields, lines 171-178 format them).  This
extraction runs outside the `try` block, so its failures propagate. -/
def letter_weather_block (weather_data : JVal) : Except String String := do
  let city ← jGetDE weather_data "name" (.str "Unknown City")
  let sys0 ← jGetDE weather_data "sys" (.obj [])
  let country_code ← jGetDE sys0 "country" (.str "Unknown Country")
  let main0 ← jGetDE weather_data "main" (.obj [])
  let temp ← jGetDE main0 "temp" (.num 0)
  let feels_like ← jGetDE main0 "feels_like" (.num 0)
  let humidity ← jGetDE main0 "humidity" (.num 0)
  let pressure ← jGetDE main0 "pressure" (.num 0)
  let wind0 ← jGetDE weather_data "wind" (.obj [])
  let wind_speed ← jGetDE wind0 "speed" (.num 0)
  let wind_direction ← jGetDE wind0 "deg" (.num 0)
  let wArr ← jGetDE weather_data "weather" (.arr [.obj []])
  let w0 ← jIdx0 wArr
  let description ← jGetDE w0 "description" (.str "unknown weather")
  let clouds0 ← jGetDE weather_data "clouds" (.obj [])
  let clouds ← jGetDE clouds0 "all" (.num 0)
  pure ("    - Location: " ++ pyStr city ++ ", " ++ pyStr country_code ++
    "\n    - Temperature: " ++ pyStr temp ++ "°C (feels like " ++ pyStr feels_like ++ "°C)" ++
    "\n    - Weather: " ++ pyStr description ++
    "\n    - Humidity: " ++ pyStr humidity ++ "%" ++
    "\n    - Pressure: " ++ pyStr pressure ++ " hPa" ++
    "\n    - Wind: " ++ pyStr wind_speed ++ " m/s, direction " ++ pyStr wind_direction ++ "°" ++
    "\n    - Cloud coverage: " ++ pyStr clouds ++ "%")

/-- Fixed head of `generate_weather_letter`'s user prompt. -/
def letter_prompt_head : String :=
  "\n    Write a short, entertaining letter (150-200 words) reporting the current weather conditions. Stay in character the entire time.\n    \n    IMPORTANT OUTPUT FORMATTING REQUIREMENTS:\n    1. Use PLAIN TEXT ONLY - absolutely NO markdown formatting\n    2. DO NOT use asterisks, hashtags, backticks or any other formatting characters\n    3. DO NOT include extra spaces or indentation at the beginning of paragraphs\n    4. Start directly with your greeting without ANY leading spaces\n    5. Do not format text in bold or italic, just use regular text\n    \n    Current weather conditions:\n"

/-- Fixed tail of `generate_weather_letter`'s user prompt. -/
def letter_prompt_tail : String :=
  "\n    \n    Write your letter now, addressing the reader directly. Include a greeting and sign-off in your character\x27s voice.\n    "

/-- The `generate_weather_letter` function of
`src/weather/schedulers/weather_updater.py`: character defaults, prompt
construction, collaborator call, `clean_text` post-processing on success, and
the catch-all fallback `"Weather letter unavailable. Error: ..."` (lines
241-243) on any collaborator failure. -/
def generate_weather_letter (weather_data : JVal) (character : Option Character)
    (llm : String → String → Except String String) : Except String String := do
  let character_name :=
    match character with
    | some c => c.name
    | none => "Eludecia the Succubus Paladin"
  let character_description0 :=
    match character with
    | some c => c.description
    | none => ""
  let character_description :=
    if character_description0 = "" then default_character_description
    else character_description0
  let block ← letter_weather_block weather_data
  let system_prompt := "You are " ++ character_name ++ ". " ++ character_description
  let user_prompt := letter_prompt_head ++ block ++ letter_prompt_tail
  match llm system_prompt user_prompt with
  | .ok letter => pure (clean_text letter)
  | .error e => pure ("Weather letter unavailable. Error: " ++ e)

/-!
Refresh orchestrator: `update_city_weather` and `update_weather_data` of
`src/weather/schedulers/weather_updater.py`, over an explicit database state
(`src/weather/models.py`).  `fetch_weather_data` is an oracle returning
`Option JVal` (`none` models its `return None` on any request exception);
the LLM collaborator is the `llm` oracle.  `ensure_default_data` only
`get_or_create`s default rows and is modelled as a no-op on an
already-initialized database; the list of cities having an active binding is
passed explicitly.  Timestamps (`auto_now` columns) are not modelled.
-/

/-- A (city, country) pair (the `City` model). -/
structure CityRec where
  name : String
  country : String
deriving DecidableEq

/-- The mutable weather columns written by `update_or_create`'s `defaults`
dict (the `Weather_current` model of `src/weather/models.py`). -/
structure SnapFields where
  temperature : Option JVal
  feels_like : Option JVal
  humidity : Option JVal
  pressure : Option JVal
  wind_speed : Option JVal
  wind_direction : Option JVal
  description : Option JVal
  icon : Option JVal
  clouds : Option JVal

/-- One `Weather_current` row: natural key plus data columns. -/
structure SnapRow where
  city : String
  country : String
  fields : SnapFields

/-- One `CityCharacter` row: city, character, latest narrative, active flag. -/
structure Binding where
  city : CityRec
  character : Character
  weather_letter : Option String
  is_active : Bool

/-- Database state relevant to the refresh cycle. -/
structure WDb where
  snapshots : List SnapRow
  bindings : List Binding

/-- Per-location log events of a refresh cycle (the cycle report): the
`logger.error("Failed to fetch...")` path, the transaction-failure path, and
the `Created`/`Updated` success log. -/
inductive UEvent where
  | fetchFail (city country : String) : UEvent
  | updateError (city : String) : UEvent
  | updated (city country : String) (created : Bool) : UEvent

/-- Failure events of a cycle report. -/
def isFailEvent : UEvent → Bool
  | .fetchFail _ _ => true
  | .updateError _ => true
  | .updated _ _ _ => false

/-- The `defaults` dict of `Weather_current.objects.update_or_create`
(lines 265-273), evaluated from the fetched payload; an extraction failure
is the exception the surrounding `try` catches. -/
def snapFieldsOf (weather_data : JVal) : Except String SnapFields := do
  let main0 ← jGetDE weather_data "main" (.obj [])
  let temperature ← jGetN main0 "temp"
  let feels_like ← jGetN main0 "feels_like"
  let humidity ← jGetN main0 "humidity"
  let pressure ← jGetN main0 "pressure"
  let wind0 ← jGetDE weather_data "wind" (.obj [])
  let wind_speed ← jGetN wind0 "speed"
  let wind_direction ← jGetN wind0 "deg"
  let wArr ← jGetDE weather_data "weather" (.arr [.obj []])
  let w0 ← jIdx0 wArr
  let description ← jGetN w0 "description"
  let icon ← jGetN w0 "icon"
  let clouds0 ← jGetDE weather_data "clouds" (.obj [])
  let clouds ← jGetN clouds0 "all"
  pure ⟨temperature, feels_like, humidity, pressure, wind_speed, wind_direction,
        description, icon, clouds⟩

/-- Django `update_or_create` keyed on (city, country): update the first
matching row in place, else append a new row; the flag is Django's
`created`.  (With duplicate keys Django would raise `MultipleObjectsReturned`;
claim C9 shows keys stay duplicate-free.) -/
def update_or_create (city country : String) (d : SnapFields) :
    List SnapRow → List SnapRow × Bool
  | [] => ([⟨city, country, d⟩], true)
  | r :: rs =>
    if r.city = city ∧ r.country = country then (⟨r.city, r.country, d⟩ :: rs, false)
    else
      let p := update_or_create city country d rs
      (r :: p.1, p.2)

/-- The per-binding letter update loop of `update_city_weather` (lines
277-286): each active binding of the city gets a freshly generated letter;
other bindings are untouched.  An error aborts the enclosing transaction. -/
def lettersFor (llm : String → String → Except String String) (w : JVal)
    (c : CityRec) (bs : List Binding) : Except String (List Binding) :=
  bs.mapM fun b =>
    if b.city = c ∧ b.is_active = true then do
      let l ← generate_weather_letter w (some b.character) llm
      pure { b with weather_letter := some l }
    else pure b

/-- The `update_city_weather` function (lines 245-292): fetch; on a falsy
payload log the failure and return with the state untouched; otherwise run
the atomic transaction (snapshot update-or-insert plus letter updates) whose
failure rolls everything back and is logged, never re-raised. -/
def update_city_weather (fetch : CityRec → Option JVal)
    (llm : String → String → Except String String) (db : WDb) (c : CityRec) :
    WDb × UEvent :=
  match fetch c with
  | none => (db, .fetchFail c.name c.country)
  | some w =>
    if !truthy w then (db, .fetchFail c.name c.country)
    else
      match snapFieldsOf w with
      | .error _ => (db, .updateError c.name)
      | .ok d =>
        match lettersFor llm w c db.bindings with
        | .error _ => (db, .updateError c.name)
        | .ok bs2 =>
          let p := update_or_create c.name c.country d db.snapshots
          ({ snapshots := p.1, bindings := bs2 }, .updated c.name c.country p.2)

/-- The `update_weather_data` cycle (lines 294-316): iterate the cities that
have an active binding (falling back to the default city when none exist),
updating each independently and accumulating the per-city log events. -/
def update_weather_data (fetch : CityRec → Option JVal)
    (llm : String → String → Except String String) (default_city : CityRec)
    (active_cities : List CityRec) (db : WDb) : WDb × List UEvent :=
  let cities := if active_cities.isEmpty then [default_city] else active_cities
  cities.foldl
    (fun acc c =>
      let p := update_city_weather fetch llm acc.1 c
      (p.1, acc.2 ++ [p.2]))
    (db, [])

/-- Natural key of a snapshot row. -/
def rowKey (r : SnapRow) : String × String := (r.city, r.country)

/-- Key presence among snapshot rows. -/
def hasKey (city country : String) (rows : List SnapRow) : Bool :=
  rows.any fun r => r.city == city && r.country == country

/-- Duplicate-freedom of snapshot keys (the WeatherSnapshot uniqueness
invariant). -/
def keysNodup (rows : List SnapRow) : Prop := (rows.map rowKey).Nodup

/-- Structural projection of a binding: everything except the narrative
text.  A refresh cycle only rewrites `weather_letter`, so this projection is
invariant. -/
def bindingShape (b : Binding) : CityRec × Character × Bool :=
  (b.city, b.character, b.is_active)

/-!
Concrete inputs used by counterexamples, code-bug evaluations and witnesses.
-/

/-- A current-conditions payload whose `main` block is complete but which
carries no `visibility` key (claim C1's failing input). -/
def c1Payload : JVal :=
  .obj [("main", .obj [("temp", .num 20), ("temp_min", .num 18), ("temp_max", .num 22),
        ("feels_like", .num 19), ("humidity", .num 50), ("pressure", .num 1013)])]

/-- Hourly samples with categories Clouds, Rain, Rain, Clouds — a tie where
the first category to reach the maximal running count (Rain) differs from the
first-encountered category (Clouds). -/
def c3Samples : List HSample :=
  [⟨0, 10, 0, "Clouds"⟩, ⟨3600, 10, 0, "Rain"⟩, ⟨7200, 10, 0, "Rain"⟩,
   ⟨10800, 10, 0, "Clouds"⟩]

/-- A single hourly sample at 01:00 with precipitation probability 0 (claim
C4's tie-with-initial-zero input). -/
def c4Samples : List HSample := [⟨3600, 10, 0, "Clouds"⟩]

/-- Hourly samples whose peak (50%) is reached first at 01:00 and repeated at
02:00. -/
def c4TieSamples : List HSample :=
  [⟨0, 10, 3/10, "Rain"⟩, ⟨3600, 10, 1/2, "Rain"⟩, ⟨7200, 10, 1/2, "Rain"⟩,
   ⟨10800, 10, 2/10, "Rain"⟩]

/-- A current-conditions payload with the given name, weather category and
description (used by the narrative-generator theorems). -/
def mkCurrentW (city cat desc : String) : JVal :=
  .obj [("name", .str city),
        ("weather", .arr [.obj [("main", .str cat), ("description", .str desc)]])]

/-- Success test of an `Except` result (a Python call that did not raise). -/
def exOk {α : Type} : Except String α → Bool
  | .ok _ => true
  | .error _ => false

/-- Whether `update_city_weather` will reach its snapshot write for a city:
the fetch returned a truthy payload, the `defaults` extraction succeeds, and
every letter generation for the city's active bindings succeeds.  This is
determined by the fetch oracle and the bindings' structure alone. -/
def cityWrites (fetch : CityRec → Option JVal)
    (llm : String → String → Except String String) (bs : List Binding)
    (c : CityRec) : Bool :=
  match fetch c with
  | none => false
  | some w => truthy w && exOk (snapFieldsOf w) && exOk (lettersFor llm w c bs)

/-- Database effect of one refresh cycle over an explicit city list (the
fold of `update_weather_data` with the log events projected away). -/
def runCycleDb (fetch : CityRec → Option JVal)
    (llm : String → String → Except String String) (cities : List CityRec)
    (db : WDb) : WDb :=
  cities.foldl (fun d c => (update_city_weather fetch llm d c).1) db

/-- Concrete city A for the cycle witnesses. -/
def cityA : CityRec := ⟨"Amsterdam", "NL"⟩

/-- Concrete city B for the cycle witnesses. -/
def cityB : CityRec := ⟨"Berlin", "DE"⟩

/-- Concrete character for the cycle witnesses. -/
def charE : Character :=
  ⟨"Eludecia the Succubus Paladin", "A reformed succubus.", "#800080"⟩

/-- Concrete fetched payload for city B. -/
def wBPayload : JVal := .obj [("main", .obj [("temp", .num 21)])]

/-- The snapshot columns extracted from `wBPayload`. -/
def dBFields : SnapFields :=
  ⟨some (.num 21), none, none, none, none, none, none, none, none⟩

/-- Concrete database for the cycle witnesses: one snapshot row for A, one
active binding per city. -/
def dbC8 : WDb :=
  { snapshots := [⟨"Amsterdam", "NL", ⟨none, none, none, none, none, none, none, none, none⟩⟩]
    bindings := [⟨cityA, charE, some "old letter A", true⟩, ⟨cityB, charE, none, true⟩] }

/-- Concrete fetch oracle: A's geocoding fails, B succeeds. -/
def fetchC8 : CityRec → Option JVal := fun c => if c = cityB then some wBPayload else none

/-- Concrete LLM oracle that always times out. -/
def llmC8 : String → String → Except String String := fun _ _ => .error "timeout"

/-!
Theorems.  First, adequacy of the pure summary `mkSummary` for
`process_forecast_data` on structured payloads.
-/

theorem foldlM_map_ok {α β γ : Type} (f : β → γ → Except String β) (g : β → α → β)
    (e : α → γ) (h : ∀ b a, f b (e a) = .ok (g b a)) :
    ∀ (l : List α) (b : β), (l.map e).foldlM f b = .ok (l.foldl g b) := by
  intro l
  induction l with
  | nil => intro b; rfl
  | cons a rest ih =>
    intro b
    simp only [List.map_cons, List.foldlM_cons, List.foldl_cons, h, ih]
    rfl

theorem mapM_map_ok {α γ δ : Type} (f : γ → Except String δ) (g : α → δ)
    (e : α → γ) (h : ∀ a, f (e a) = .ok (g a)) :
    ∀ l : List α, (l.map e).mapM f = .ok (l.map g) := by
  intro l
  induction l with
  | nil => rfl
  | cons a rest ih =>
    simp only [List.map_cons, List.mapM_cons, h, ih]
    rfl


theorem foldlM_ok_of {α β : Type} (f : β → α → Except String β) (g : β → α → β)
    (h : ∀ b a, f b a = .ok (g b a)) :
    ∀ (l : List α) (b : β), l.foldlM f b = .ok (l.foldl g b) := by
  intro l
  induction l with
  | nil => intro b; rfl
  | cons a rest ih =>
    intro b
    simp only [List.foldlM_cons, List.foldl_cons, h, ih]
    rfl

theorem slotBodyE_mk (s : HSample) (hod : ℤ) (m : List (String × JVal)) (sl : String × ℤ) :
    slotBodyE (mkHour s) hod m sl = .ok (slotBodyP s hod m sl) := by
  unfold slotBodyE slotBodyP
  by_cases h : hod = sl.2
  · simp only [if_pos h]; rfl
  · simp only [if_neg h]; rfl

theorem hourStepE_mk (st : HState) (s : HSample) :
    hourStepE st (mkHour s) = .ok (hourStepP st s) := by
  have h := foldlM_ok_of (slotBodyE (mkHour s) (hourOfDay s.dt))
    (slotBodyP s (hourOfDay s.dt)) (slotBodyE_mk s (hourOfDay s.dt)) time_slots st.slots
  have e1 : hourStepE st (mkHour s) =
      (time_slots.foldlM (slotBodyE (mkHour s) (hourOfDay s.dt)) st.slots) >>= (fun slots =>
        if s.pop * 100 > st.maxP then
          Except.ok { slots := slots, maxP := s.pop * 100, maxT := hmFmt s.dt }
        else
          Except.ok { slots := slots, maxP := st.maxP, maxT := st.maxT }) := rfl
  rw [e1, h]
  unfold hourStepP
  by_cases hc : s.pop * 100 > st.maxP
  · simp only [if_pos hc]; rfl
  · simp only [if_neg hc]; rfl


theorem processHourly_mk (hs : List HSample) :
    processHourly (hs.map mkHour) = .ok (hs.foldl hourStepP initHState) := by
  unfold processHourly initHState
  exact foldlM_map_ok hourStepE hourStepP mkHour (fun b a => hourStepE_mk b a) hs _

theorem hourCat_mk (s : HSample) : hourCat (mkHour s) = .ok (.str s.cat) := rfl

theorem dominantOf_mk (hs : List HSample) :
    dominantOf ((hs.map mkHour).take 24) =
      .ok (dominantOfCats ((hs.take 24).map HSample.cat)) := by
  unfold dominantOf
  rw [← List.map_take]
  rw [mapM_map_ok hourCat (fun s => JVal.str s.cat) mkHour (fun a => hourCat_mk a) (hs.take 24)]
  show Except.ok (dominantOfCats (((hs.take 24).map (fun s => JVal.str s.cat)).map asCatKey)) = _
  rw [List.map_map]
  rfl

theorem dailyMinMax_mk (ds : List DSample) :
    dailyMinMax (ds.map mkDaily) =
      .ok (match ds with
           | [] => ((.num 100 : JVal), (.num (-100) : JVal))
           | d :: _ => (.num d.tmin, .num d.tmax)) := by
  cases ds <;> rfl

theorem process_mk (hs : List HSample) (ds : List DSample) :
    process_forecast_data (mkForecast hs ds) = .ok (some (mkSummary hs ds)) := by
  have e1 : process_forecast_data (mkForecast hs ds) =
      (dailyMinMax (ds.map mkDaily)) >>= (fun tmm =>
        (processHourly (hs.map mkHour)) >>= (fun st =>
          (dominantOf ((hs.map mkHour).take 24)) >>= (fun weather_main_type =>
            Except.ok (some
              { weather_type := "Unknown: unknown"
                weather_temperature := "Unknown°C (feels like Unknown°C)"
                weather_temperature_range := "Min: " ++ pyStr tmm.1 ++ "°C, Max: " ++ pyStr tmm.2 ++ "°C"
                weather_humidity := "Unknown%"
                weather_pressure := "Unknown hPa"
                weather_wind := "Unknown m/s, direction Unknown°"
                weather_visibility := "Unknown km"
                weather_uvi := "Unknown"
                weather_clouds := "Unknown%"
                weather_daylight := "Sunrise-Unknown, Sunset-Unknown"
                temp_min := pyStr tmm.1
                temp_max := pyStr tmm.2
                max_precip := formatF0 st.maxP
                max_precip_time := st.maxT
                weather_main_type := weather_main_type
                hourly_forecasts := st.slots })))) := rfl
  rw [e1, dailyMinMax_mk, processHourly_mk, dominantOf_mk]
  cases ds <;> rfl

/-- Claim C1: the aggregation functions were claimed total, degrading any
missing nested field to an "Unknown" marker.  `handle_weather_data` instead
raises: on a payload whose `main` block is complete but whose `visibility`
key is absent, line 133 of `src/main.py` evaluates
`weather_data.get('visibility', 'Unknown') / 1000`, a TypeError — the
`'Unknown'` default it supplies can never survive the division, so the code
contradicts its own degrade-to-Unknown intent (compare line 178 of
`process_forecast_data`, which guards this very division). -/
theorem c1_missing_visibility_raises :
    handle_weather_data c1Payload = .error "TypeError" := by
  rfl

/-- Claim C2, counterexample to the claim as stated: on a forecast payload
with zero daily entries, `process_forecast_data` reports the fabricated
numeric defaults "100" and "-100", not an "unknown" sentinel. -/
theorem c2_counterexample :
    sTempMin (process_forecast_data (mkForecast [] [])) = "100" ∧
    sTempMax (process_forecast_data (mkForecast [] [])) = "-100" ∧
    sTempMin (process_forecast_data (mkForecast [] [])) ≠ "Unknown" ∧
    sTempMax (process_forecast_data (mkForecast [] [])) ≠ "unknown" := by
  refine ⟨rfl, rfl, ?_, ?_⟩ <;> decide

/-- Claim C2 (amended): for every forecast payload with at least one daily
entry, the summary's `temp_min`/`temp_max` equal the first daily entry's min
and max; with zero daily entries they are the initialization constants 100
and -100 (fabricated bounds), not an "unknown" sentinel. -/
theorem c2_first_daily_entry (hs : List HSample) (ds : List DSample) :
    sTempMin (process_forecast_data (mkForecast hs ds)) =
      (match ds with
       | [] => "100"
       | d :: _ => pyStr (.num d.tmin)) ∧
    sTempMax (process_forecast_data (mkForecast hs ds)) =
      (match ds with
       | [] => "-100"
       | d :: _ => pyStr (.num d.tmax)) := by
  rw [process_mk]
  cases ds <;> exact ⟨rfl, rfl⟩

/-- Claim C5, counterexample to the claim as stated: `clean_text` does not
map the scenario input to `"Hello\nGreetings\nGoodbye"`. -/
theorem c5_counterexample :
    clean_text "**Hello**\n  # Greetings\n  ```code```\nGoodbye" ≠
      "Hello\nGreetings\nGoodbye" := by
  decide

/-- Claim C5 (amended): `clean_text` maps the scenario input to
`"Hello\nGreetings\n\nGoodbye"` — the steps run in the claimed order, but
removing the fenced code block deletes only the lazily-matched span from the
opening to the closing backtick fence, leaving its surrounding newlines as
an empty line. -/
theorem c5_sanitization :
    clean_text "**Hello**\n  # Greetings\n  ```code```\nGoodbye" =
      "Hello\nGreetings\n\nGoodbye" := by
  decide

/-- Claim C6, counterexample to the claim as stated: on a collaborator
failure, `generate_weather_letter` (lines 241-243 of
`src/weather/schedulers/weather_updater.py`) returns a fallback naming the
error, which does not reference the current weather category ("Clear" here,
checked case-insensitively); only `get_eludecia_response`'s fallback does. -/
theorem c6_counterexample :
    generate_weather_letter (mkCurrentW "TestCity" "Clear" "clear sky") none
        (fun _ _ => .error "E1") =
      .ok "Weather letter unavailable. Error: E1" ∧
    pyIn (pyLower "Clear")
        (pyLower "Weather letter unavailable. Error: E1") = false := by
  exact ⟨rfl, by decide⟩

/-- Claim C6 (amended): neither narrative generator propagates a
collaborator failure.  `get_eludecia_response` returns a deterministic
fallback that embeds the (lowercased) current weather category;
`generate_weather_letter` instead returns the deterministic template
`"Weather letter unavailable. Error: ..."` naming the error, with no
reference to the weather category. -/
theorem c6_fallbacks (weather_info : List (String × String)) (e : String)
    (city cat desc : String) (character : Option Character) (e2 : String) :
    get_eludecia_response weather_info true (.error e) =
      "Sorry, I\x27m unable to provide a personalized weather description for " ++
        pyLower (eludecia_weather_type weather_info) ++ " weather at the moment." ∧
    (∃ pre post, get_eludecia_response weather_info true (.error e) =
      pre ++ pyLower (eludecia_weather_type weather_info) ++ post) ∧
    generate_weather_letter (mkCurrentW city cat desc) character
        (fun _ _ => .error e2) =
      .ok ("Weather letter unavailable. Error: " ++ e2) := by
  refine ⟨rfl, ⟨"Sorry, I\x27m unable to provide a personalized weather description for ",
    " weather at the moment.", rfl⟩, ?_⟩
  cases character <;> rfl


theorem cnt_tallyAdd (m : List (String × Nat)) (k c : String) :
    cnt (tallyAdd m k) c = if k = c then cnt m c + 1 else cnt m c := by
  induction m with
  | nil => simp [tallyAdd, cnt]
  | cons p rest ih =>
    obtain ⟨a, n⟩ := p
    by_cases hak : a = k
    · subst hak
      simp only [tallyAdd, if_pos rfl, cnt]
      split_ifs <;> simp_all [cnt]
    · simp only [tallyAdd, if_neg hak, cnt]
      split_ifs <;> simp_all [cnt]

theorem cnt_tally_aux (l : List String) :
    ∀ (m : List (String × Nat)) (c : String),
      cnt (l.foldl tallyAdd m) c = cnt m c + cntL l c := by
  induction l with
  | nil => intro m c; simp [cntL]
  | cons x xs ih =>
    intro m c
    simp only [List.foldl_cons, ih, cnt_tallyAdd, cntL]
    split_ifs <;> omega

theorem cnt_tally (l : List String) (c : String) : cnt (tally l) c = cntL l c := by
  have h := cnt_tally_aux l [] c
  simpa [tally, cnt] using h

theorem tally_concat (l : List String) (x : String) :
    tally (l ++ [x]) = tallyAdd (tally l) x := by
  simp [tally, List.foldl_append]

theorem keys_tallyAdd_mem (m : List (String × Nat)) (k : String)
    (h : k ∈ m.map Prod.fst) :
    (tallyAdd m k).map Prod.fst = m.map Prod.fst := by
  induction m with
  | nil => simp at h
  | cons p rest ih =>
    obtain ⟨a, n⟩ := p
    by_cases hak : a = k
    · subst hak; simp [tallyAdd]
    · simp only [List.map_cons, List.mem_cons] at h
      rcases h with h | h
    
      · exact absurd h.symm hak
      · simp [tallyAdd, if_neg hak, ih h]

theorem keys_tallyAdd_not_mem (m : List (String × Nat)) (k : String)
    (h : k ∉ m.map Prod.fst) :
    (tallyAdd m k).map Prod.fst = m.map Prod.fst ++ [k] := by
  induction m with
  | nil => simp [tallyAdd]
  | cons p rest ih =>
    obtain ⟨a, n⟩ := p
    simp only [List.map_cons, List.mem_cons, not_or] at h
    obtain ⟨h1, h2⟩ := h
    simp [tallyAdd, if_neg (Ne.symm h1), ih h2]

theorem mem_keys_tally (l : List String) (c : String) :
    c ∈ (tally l).map Prod.fst ↔ c ∈ l := by
  induction l using List.reverseRecOn with
  | nil => simp [tally]
  | append_singleton l x ih =>
    rw [tally_concat]
    by_cases hx : x ∈ (tally l).map Prod.fst
    · rw [keys_tallyAdd_mem _ _ hx]
      simp only [List.mem_append, List.mem_singleton, ih]
      constructor
      · exact fun h => Or.inl h
      · rintro (h | rfl)
        · exact h
        · exact ih.mp hx
    · rw [keys_tallyAdd_not_mem _ _ hx]
      simp [ih]

theorem firstIdx_append_of_mem (l l2 : List String) (c : String) (h : c ∈ l) :
    firstIdx (l ++ l2) c = firstIdx l c := by
  induction l with
  | nil => simp at h
  | cons x xs ih =>
    by_cases hxc : x = c
    · simp [firstIdx, if_pos hxc]
    · simp only [List.mem_cons] at h
      rcases h with h | h
      · exact absurd h.symm hxc
      · simp [firstIdx, if_neg hxc, ih h]

theorem firstIdx_lt_length (l : List String) (c : String) (h : c ∈ l) :
    firstIdx l c < l.length := by
  induction l with
  | nil => simp at h
  | cons x xs ih =>
    by_cases hxc : x = c
    · simp [firstIdx, if_pos hxc]
    · simp only [List.mem_cons] at h
      rcases h with h | h
      · exact absurd h.symm hxc
      · simp only [firstIdx, if_neg hxc, List.length_cons]
        have := ih h
        omega

theorem firstIdx_concat_self (l : List String) (c : String) (h : c ∉ l) :
    firstIdx (l ++ [c]) c = l.length := by
  induction l with
  | nil => simp [firstIdx]
  | cons x xs ih =>
    simp only [List.mem_cons, not_or] at h
    have hxc : ¬(x = c) := fun hh => h.1 hh.symm
    simp only [List.cons_append, firstIdx, if_neg hxc, List.length_cons, List.append_eq]
    rw [ih h.2]

theorem pairwise_keys_tally (l : List String) :
    ((tally l).map Prod.fst).Pairwise (fun a b => firstIdx l a < firstIdx l b) := by
  induction l using List.reverseRecOn with
  | nil => simp [tally]
  | append_singleton l x ih =>
    rw [tally_concat]
    by_cases hx : x ∈ (tally l).map Prod.fst
    · rw [keys_tallyAdd_mem _ _ hx]
      refine ih.imp_of_mem ?_
      intro a b ha hb hab
      rw [firstIdx_append_of_mem _ _ _ ((mem_keys_tally l a).mp ha),
          firstIdx_append_of_mem _ _ _ ((mem_keys_tally l b).mp hb)]
      exact hab
    · rw [keys_tallyAdd_not_mem _ _ hx]
      rw [List.pairwise_append]
      refine ⟨?_, by simp, ?_⟩
      · refine ih.imp_of_mem ?_
        intro a b ha hb hab
        rw [firstIdx_append_of_mem _ _ _ ((mem_keys_tally l a).mp ha),
            firstIdx_append_of_mem _ _ _ ((mem_keys_tally l b).mp hb)]
        exact hab
      · intro a ha b hb
        simp only [List.mem_singleton] at hb
        subst hb
        have hal : a ∈ l := (mem_keys_tally l a).mp ha
        have hxl : b ∉ l := fun hc => hx ((mem_keys_tally l b).mpr hc)
        rw [firstIdx_append_of_mem _ _ _ hal, firstIdx_concat_self _ _ hxl]
        exact firstIdx_lt_length l a hal

theorem nodup_keys_tally (l : List String) : ((tally l).map Prod.fst).Nodup := by
  refine (pairwise_keys_tally l).imp ?_
  intro a b hab
  intro hEq
  subst hEq
  exact lt_irrefl _ hab

theorem cnt_of_mem_nodup (m : List (String × Nat)) (c : String) (n : Nat)
    (hnd : (m.map Prod.fst).Nodup) (h : (c, n) ∈ m) : cnt m c = n := by
  induction m with
  | nil => simp at h
  | cons p rest ih =>
    obtain ⟨a, k⟩ := p
    simp only [List.map_cons, List.nodup_cons] at hnd
    simp only [List.mem_cons] at h
    rcases h with h | h
    · rw [Prod.mk.injEq] at h
      obtain ⟨rfl, rfl⟩ := h
      simp [cnt]
    · by_cases hac : a = c
      · subst hac
        exact absurd (List.mem_map_of_mem Prod.fst h) hnd.1
      · simp only [cnt, if_neg hac]
        exact ih hnd.2 h

theorem mem_of_key_mem (m : List (String × Nat)) (c : String)
    (h : c ∈ m.map Prod.fst) : (c, cnt m c) ∈ m := by
  induction m with
  | nil => simp at h
  | cons p rest ih =>
    obtain ⟨a, k⟩ := p
    by_cases hac : a = c
    · subst hac
      simp [cnt]
    · simp only [List.map_cons, List.mem_cons] at h
      rcases h with h | h
      · exact absurd h.symm hac
      · simp only [cnt, if_neg hac, List.mem_cons]
        exact Or.inr (ih h)

theorem pyMaxGo_mem : ∀ (rest : List (String × Nat)) (p : String × Nat),
    pyMaxGo p rest ∈ p :: rest := by
  intro rest
  induction rest with
  | nil => intro p; simp [pyMaxGo]
  | cons q r ih =>
    intro p
    simp only [pyMaxGo]
    split_ifs with h
    · have hq := ih q
      simp only [List.mem_cons] at hq ⊢
      tauto
    · have hp := ih p
      simp only [List.mem_cons] at hp ⊢
      tauto


theorem pyMaxGo_ge : ∀ (rest : List (String × Nat)) (p q : String × Nat),
    q ∈ p :: rest → q.2 ≤ (pyMaxGo p rest).2 := by
  intro rest
  induction rest with
  | nil =>
    intro p q hq
    simp only [List.mem_cons, List.not_mem_nil, or_false] at hq
    subst hq
    simp [pyMaxGo]
  | cons r rs ih =>
    intro p q hq
    simp only [pyMaxGo]
    simp only [List.mem_cons] at hq
    split_ifs with h
    · have hr := ih r r (List.mem_cons_self ..)
      rcases hq with h1 | h1 | h1
      · rw [h1]; exact le_trans (le_of_lt h) hr
      · rw [h1]; exact hr
      · exact ih r q (List.mem_cons_of_mem r h1)
    · have hp := ih p p (List.mem_cons_self ..)
      rcases hq with h1 | h1 | h1
      · rw [h1]; exact hp
      · rw [h1]; exact le_trans (Nat.le_of_not_lt h) hp
      · exact ih p q (List.mem_cons_of_mem p h1)

theorem pyMaxGo_first : ∀ (rest : List (String × Nat)) (p : String × Nat),
    ∃ pre post, p :: rest = pre ++ (pyMaxGo p rest) :: post ∧
      ∀ q ∈ pre, q.2 < (pyMaxGo p rest).2 := by
  intro rest
  induction rest with
  | nil =>
    intro p
    exact ⟨[], [], by simp [pyMaxGo], by simp⟩
  | cons r rs ih =>
    intro p
    simp only [pyMaxGo]
    split_ifs with h
    · obtain ⟨pre, post, heq, hlt⟩ := ih r
      refine ⟨p :: pre, post, by rw [List.cons_append, ← heq], ?_⟩
      intro q hq
      simp only [List.mem_cons] at hq
      rcases hq with rfl | hq
      · exact lt_of_lt_of_le h (pyMaxGo_ge rs r r (List.mem_cons_self ..))
      · exact hlt q hq
    · obtain ⟨pre, post, heq, hlt⟩ := ih p
      cases pre with
      | nil =>
        simp only [List.nil_append] at heq
        have hp : pyMaxGo p rs = p := (List.cons.injEq .. ▸ heq).1.symm
        refine ⟨[], r :: post, ?_, by simp⟩
        rw [hp]
        simp only [List.nil_append]
        have : rs = post := (List.cons.injEq .. ▸ heq).2
        rw [this]
      | cons p0 pre2 =>
        have h1 : p0 = p := ((List.cons.injEq ..).mp heq).1.symm
        have h2 : rs = pre2 ++ pyMaxGo p rs :: post := ((List.cons.injEq ..).mp heq).2
        subst h1
        refine ⟨p0 :: r :: pre2, post, ?_, ?_⟩
        · simp only [List.cons_append]
          rw [← h2]
        · intro q hq
          simp only [List.mem_cons] at hq
          rcases hq with rfl | rfl | hq
          · exact hlt q (List.mem_cons_self ..)
          · exact lt_of_le_of_lt (Nat.le_of_not_lt h) (hlt p0 (List.mem_cons_self ..))
          · exact hlt q (List.mem_cons_of_mem p0 hq)

theorem pairwise_of_decomp {α : Type} {R : α → α → Prop} {l pre post : List α} {x : α}
    (hp : l.Pairwise R) (heq : l = pre ++ x :: post) : ∀ y ∈ post, R x y := by
  subst heq
  rw [List.pairwise_append] at hp
  have := hp.2.1
  rw [List.pairwise_cons] at this
  exact this.1

theorem dominantOfCats_spec (cats : List String) (c : String) (hc : c ∈ cats) :
    dominantOfCats cats ∈ cats ∧
    cntL cats c ≤ cntL cats (dominantOfCats cats) ∧
    (cntL cats c = cntL cats (dominantOfCats cats) →
      firstIdx cats (dominantOfCats cats) ≤ firstIdx cats c) := by
  have hckeys : c ∈ (tally cats).map Prod.fst := (mem_keys_tally cats c).mpr hc
  cases htally : tally cats with
  | nil => rw [htally] at hckeys; simp at hckeys
  | cons p rest =>
    have hd : dominantOfCats cats = (pyMaxGo p rest).1 := by
      rw [dominantOfCats, htally]
    have hnd : ((tally cats).map Prod.fst).Nodup := nodup_keys_tally cats
    have hdmem : pyMaxGo p rest ∈ tally cats := htally ▸ pyMaxGo_mem rest p
    have hdkeys : (pyMaxGo p rest).1 ∈ (tally cats).map Prod.fst :=
      List.mem_map_of_mem Prod.fst hdmem
    have hdcats : dominantOfCats cats ∈ cats := hd ▸ (mem_keys_tally cats _).mp hdkeys
    have hdcnt : cntL cats (pyMaxGo p rest).1 = (pyMaxGo p rest).2 := by
      rw [← cnt_tally]
      refine cnt_of_mem_nodup _ _ _ hnd ?_
      exact hdmem
    have hccnt : (c, cntL cats c) ∈ tally cats := by
      have := mem_of_key_mem _ _ hckeys
      rwa [cnt_tally] at this
    have hcle : cntL cats c ≤ (pyMaxGo p rest).2 :=
      pyMaxGo_ge rest p (c, cntL cats c) (htally ▸ hccnt)
    refine ⟨hdcats, ?_, ?_⟩
    · rw [hd, hdcnt]
      exact hcle
    · intro htie
      rw [hd, hdcnt] at htie
      obtain ⟨pre, post, heq, hlt⟩ := pyMaxGo_first rest p
      rw [← htally] at heq
      rw [heq] at hccnt
      rcases List.mem_append.mp hccnt with hin | hin
      · exact absurd htie (Nat.ne_of_lt (hlt _ hin))
      · rcases List.mem_cons.mp hin with hceq | hin
        · have hcd : c = (pyMaxGo p rest).1 := congrArg Prod.fst hceq
          rw [hd, ← hcd]
        · have hkeys : (tally cats).map Prod.fst =
              pre.map Prod.fst ++ (pyMaxGo p rest).1 :: post.map Prod.fst := by
            rw [heq]
            simp
          have hpw := pairwise_keys_tally cats
          have hcpost : c ∈ post.map Prod.fst := List.mem_map_of_mem Prod.fst hin
          have hltc := pairwise_of_decomp (hkeys ▸ hpw) rfl c hcpost
          rw [hd]
          exact le_of_lt hltc


/-- Claim C3, counterexample to the claim as stated: on the chronological
samples Clouds, Rain, Rain, Clouds the summary's dominant category is
"Clouds" (the first-encountered tied category), while the claimed rule —
first category to reach the maximum count as samples are scanned — selects
"Rain". -/
theorem c3_counterexample :
    sMainType (process_forecast_data (mkForecast c3Samples [])) = "Clouds" ∧
    specFirstToReachMax (c3Samples.map HSample.cat) = some "Rain" ∧
    ("Clouds" : String) ≠ "Rain" := by
  refine ⟨?_, by decide, by decide⟩
  rw [process_mk]
  decide

/-- Claim C3 (amended): the dominant category is tallied over only the
first 24 hourly samples; the reported category occurs in that window, has
the maximal occurrence count there, and among tied categories its first
occurrence is earliest in the scan (Python's insertion-ordered dict plus
`max(..., key=...)` break ties by first encounter). -/
theorem c3_dominant (hs : List HSample) (ds : List DSample) (c : String)
    (hc : c ∈ (hs.take 24).map HSample.cat) :
    sMainType (process_forecast_data (mkForecast hs ds)) ∈ (hs.take 24).map HSample.cat ∧
    cntL ((hs.take 24).map HSample.cat) c ≤
      cntL ((hs.take 24).map HSample.cat)
        (sMainType (process_forecast_data (mkForecast hs ds))) ∧
    (cntL ((hs.take 24).map HSample.cat) c =
        cntL ((hs.take 24).map HSample.cat)
          (sMainType (process_forecast_data (mkForecast hs ds))) →
      firstIdx ((hs.take 24).map HSample.cat)
          (sMainType (process_forecast_data (mkForecast hs ds))) ≤
        firstIdx ((hs.take 24).map HSample.cat) c) := by
  rw [process_mk]
  exact dominantOfCats_spec ((hs.take 24).map HSample.cat) c hc

theorem c3_dominant_witness :
    sMainType (process_forecast_data (mkForecast c3Samples [])) ∈
      (c3Samples.take 24).map HSample.cat ∧
    cntL ((c3Samples.take 24).map HSample.cat) "Rain" ≤
      cntL ((c3Samples.take 24).map HSample.cat)
        (sMainType (process_forecast_data (mkForecast c3Samples []))) ∧
    (cntL ((c3Samples.take 24).map HSample.cat) "Rain" =
        cntL ((c3Samples.take 24).map HSample.cat)
          (sMainType (process_forecast_data (mkForecast c3Samples []))) →
      firstIdx ((c3Samples.take 24).map HSample.cat)
          (sMainType (process_forecast_data (mkForecast c3Samples []))) ≤
        firstIdx ((c3Samples.take 24).map HSample.cat) "Rain") :=
  c3_dominant c3Samples [] "Rain" (by decide)



theorem hourStepP_maxP (st : HState) (s : HSample) :
    (hourStepP st s).maxP = if s.pop * 100 > st.maxP then s.pop * 100 else st.maxP := by
  by_cases h : s.pop * 100 > st.maxP <;> simp [hourStepP, h]

theorem hourStepP_maxT (st : HState) (s : HSample) :
    (hourStepP st s).maxT = if s.pop * 100 > st.maxP then hmFmt s.dt else st.maxT := by
  by_cases h : s.pop * 100 > st.maxP <;> simp [hourStepP, h]

theorem hourStepP_maxP_mono (st : HState) (s : HSample) :
    st.maxP ≤ (hourStepP st s).maxP := by
  rw [hourStepP_maxP]
  split_ifs with h
  · exact le_of_lt h
  · exact le_refl _

theorem hourStepP_maxP_ge_pop (st : HState) (s : HSample) :
    s.pop * 100 ≤ (hourStepP st s).maxP := by
  rw [hourStepP_maxP]
  split_ifs with h
  · exact le_refl _
  · exact le_of_not_lt h

theorem foldl_maxP_mono (l : List HSample) :
    ∀ st : HState, st.maxP ≤ (l.foldl hourStepP st).maxP := by
  induction l with
  | nil => intro st; exact le_refl _
  | cons s rest ih =>
    intro st
    exact le_trans (hourStepP_maxP_mono st s) (ih (hourStepP st s))

theorem peak_ge (hs : List HSample) : ∀ h ∈ hs, h.pop * 100 ≤ peakOf hs := by
  intro h hmem
  obtain ⟨pre, post, rfl⟩ := List.append_of_mem hmem
  unfold peakOf
  rw [List.foldl_append, List.foldl_cons]
  exact le_trans (hourStepP_maxP_ge_pop _ h) (foldl_maxP_mono post _)

theorem peak_nonneg (hs : List HSample) : 0 ≤ peakOf hs :=
  foldl_maxP_mono hs initHState

theorem peak_concat (l : List HSample) (x : HSample) :
    (l ++ [x]).foldl hourStepP initHState = hourStepP (l.foldl hourStepP initHState) x := by
  rw [List.foldl_append, List.foldl_cons, List.foldl_nil]

theorem peak_time_first (hs : List HSample) :
    0 < peakOf hs → ∃ pre h post, hs = pre ++ h :: post ∧ h.pop * 100 = peakOf hs ∧
      (∀ h2 ∈ pre, h2.pop * 100 < peakOf hs) ∧ peakTimeOf hs = hmFmt h.dt := by
  induction hs using List.reverseRecOn with
  | nil => intro h; exact absurd h (by simp [peakOf, initHState])
  | append_singleton l x ih =>
    intro hpos
    have hmaxP : peakOf (l ++ [x]) =
        if x.pop * 100 > peakOf l then x.pop * 100 else peakOf l := by
      unfold peakOf
      rw [peak_concat, hourStepP_maxP]
    have hmaxT : peakTimeOf (l ++ [x]) =
        if x.pop * 100 > peakOf l then hmFmt x.dt else peakTimeOf l := by
      unfold peakTimeOf peakOf
      rw [peak_concat, hourStepP_maxT]
    by_cases hgt : x.pop * 100 > peakOf l
    · refine ⟨l, x, [], rfl, ?_, ?_, ?_⟩
      · rw [hmaxP, if_pos hgt]
      · intro h2 hh2
        rw [hmaxP, if_pos hgt]
        exact lt_of_le_of_lt (peak_ge l h2 hh2) hgt
      · rw [hmaxT, if_pos hgt]
    · rw [hmaxP, if_neg hgt] at hpos
      obtain ⟨pre, h, post, heq, hpop, hlt, htime⟩ := ih hpos
      refine ⟨pre, h, post ++ [x], ?_, ?_, ?_, ?_⟩
      · rw [heq]
        simp
      · rw [hmaxP, if_neg hgt, hpop]
      · intro h2 hh2
        rw [hmaxP, if_neg hgt]
        exact hlt h2 hh2
      · rw [hmaxT, if_neg hgt, htime]

theorem peak_zero_time (hs : List HSample) :
    ¬ 0 < peakOf hs → peakTimeOf hs = "None" := by
  induction hs using List.reverseRecOn with
  | nil => intro _; rfl
  | append_singleton l x ih =>
    intro hnpos
    have hmaxP : peakOf (l ++ [x]) =
        if x.pop * 100 > peakOf l then x.pop * 100 else peakOf l := by
      unfold peakOf
      rw [peak_concat, hourStepP_maxP]
    have hmaxT : peakTimeOf (l ++ [x]) =
        if x.pop * 100 > peakOf l then hmFmt x.dt else peakTimeOf l := by
      unfold peakTimeOf peakOf
      rw [peak_concat, hourStepP_maxT]
    by_cases hgt : x.pop * 100 > peakOf l
    · exfalso
      apply hnpos
      rw [hmaxP, if_pos hgt]
      exact lt_of_le_of_lt (peak_nonneg l) hgt
    · rw [hmaxT, if_neg hgt]
      rw [hmaxP, if_neg hgt] at hnpos
      exact ih hnpos

/-- Claim C4 (amended): the recorded precipitation peak dominates every
hourly sample's probability (×100), the summary reports exactly the scanned
peak and its time, and whenever some sample strictly exceeds the initial 0
the recorded time is the timestamp of the chronologically earliest sample
achieving the peak (ties keep the first maximum); when no sample exceeds 0
the time stays the "None" sentinel. -/
theorem c4_precip_peak (hs : List HSample) (ds : List DSample) :
    (∀ h ∈ hs, h.pop * 100 ≤ peakOf hs) ∧
    sMaxPrecip (process_forecast_data (mkForecast hs ds)) = formatF0 (peakOf hs) ∧
    sMaxPrecipTime (process_forecast_data (mkForecast hs ds)) = peakTimeOf hs ∧
    (0 < peakOf hs → ∃ pre h post, hs = pre ++ h :: post ∧ h.pop * 100 = peakOf hs ∧
      (∀ h2 ∈ pre, h2.pop * 100 < peakOf hs) ∧ peakTimeOf hs = hmFmt h.dt) ∧
    (¬ 0 < peakOf hs → peakTimeOf hs = "None") := by
  refine ⟨peak_ge hs, ?_, ?_, peak_time_first hs, peak_zero_time hs⟩
  · rw [process_mk]; rfl
  · rw [process_mk]; rfl


theorem peak_c4Samples : peakOf c4Samples = 0 := by
  have h0 : ¬((0:ℚ) * 100 > (0:ℚ)) := by norm_num
  simp only [peakOf, c4Samples, List.foldl, hourStepP_maxP, initHState]
  rw [if_neg h0]

theorem peakTime_c4Samples : peakTimeOf c4Samples = "None" := by
  have h0 : ¬((0:ℚ) * 100 > (0:ℚ)) := by norm_num
  simp only [peakTimeOf, c4Samples, List.foldl, hourStepP_maxT, initHState]
  rw [if_neg h0]

theorem hmFmt_3600 : hmFmt 3600 = "01:00" := by
  have h1 : (⌊(3600:ℚ) / 3600⌋ : ℤ) = 1 := by norm_num
  have h2 : (⌊(3600:ℚ) / 60⌋ : ℤ) = 60 := by norm_num
  rw [hmFmt, h1, h2]
  decide

/-- Claim C4, counterexample to the claim as stated: a single sample with
probability 0 achieves the (zero) peak, but the recorded peak time is the
initialization sentinel "None", not that earliest achieving sample's
timestamp "01:00". -/
theorem c4_counterexample :
    peakOf c4Samples = 0 ∧
    (⟨3600, 10, 0, "Clouds"⟩ : HSample).pop * 100 = peakOf c4Samples ∧
    sMaxPrecipTime (process_forecast_data (mkForecast c4Samples [])) = "None" ∧
    hmFmt (3600 : ℚ) ≠ "None" := by
  refine ⟨peak_c4Samples, ?_, ?_, ?_⟩
  · rw [peak_c4Samples]; norm_num
  · rw [process_mk]
    exact peakTime_c4Samples
  · rw [hmFmt_3600]; decide

theorem peak_c4Tie : peakOf c4TieSamples = 50 := by
  have h1 : ((3:ℚ)/10) * 100 > (0:ℚ) := by norm_num
  have h2 : ((1:ℚ)/2) * 100 > ((3:ℚ)/10) * 100 := by norm_num
  have h3 : ¬(((1:ℚ)/2) * 100 > ((1:ℚ)/2) * 100) := by norm_num
  have h4 : ¬(((2:ℚ)/10) * 100 > ((1:ℚ)/2) * 100) := by norm_num
  simp only [peakOf, c4TieSamples, List.foldl, hourStepP_maxP, initHState]
  rw [if_pos h1, if_pos h2, if_neg h3, if_neg h4]
  norm_num

theorem c4_precip_peak_witness :
    0 < peakOf c4TieSamples ∧
    (∃ pre h post, c4TieSamples = pre ++ h :: post ∧
      h.pop * 100 = peakOf c4TieSamples ∧
      (∀ h2 ∈ pre, h2.pop * 100 < peakOf c4TieSamples) ∧
      peakTimeOf c4TieSamples = hmFmt h.dt) :=
  have hpos : 0 < peakOf c4TieSamples := by rw [peak_c4Tie]; norm_num
  ⟨hpos, (c4_precip_peak c4TieSamples []).2.2.2.1 hpos⟩



theorem isLi_ne_empty (s : String) (h : isLi s = true) : s ≠ "" := by
  intro he
  subst he
  exact absurd h (by decide)

theorem pool_isLi (weather_type : String) (tmin tmax mp : ℚ) (lang : String) :
    ∀ s ∈ suggestionPool weather_type tmin tmax mp lang, isLi s = true := by
  unfold suggestionPool
  split_ifs <;> decide

theorem pool_len (weather_type : String) (tmin tmax mp : ℚ) (lang : String) :
    3 ≤ (suggestionPool weather_type tmin tmax mp lang).length := by
  unfold suggestionPool
  split_ifs <;> decide

theorem filler_isLi (lang : String) : isLi (suggestionFiller lang) = true := by
  unfold suggestionFiller
  split_ifs <;> decide

theorem numberKeysFrom_length : ∀ (l : List String) (i : Nat),
    (numberKeysFrom i l).length = l.length := by
  intro l
  induction l with
  | nil => intro i; rfl
  | cons s rest ih => intro i; simp [numberKeysFrom, ih]

theorem numberKeysFrom_snd : ∀ (l : List String) (i : Nat) (p : String × String),
    p ∈ numberKeysFrom i l → p.2 ∈ l := by
  intro l
  induction l with
  | nil => intro i p h; simp [numberKeysFrom] at h
  | cons s rest ih =>
    intro i p h
    simp only [numberKeysFrom, List.mem_cons] at h
    rcases h with h | h
    · rw [h]; exact List.mem_cons_self ..
    · exact List.mem_cons_of_mem s (ih (i + 1) p h)

theorem gas_shape (sample : List String → List String) (weather_main_type : String)
    (temp_min temp_max max_precip : ℚ) (language : String)
    (hs : sampleContract sample) :
    (generate_activity_suggestions sample weather_main_type temp_min temp_max
        max_precip language).length = 3 ∧
    ∀ p ∈ generate_activity_suggestions sample weather_main_type temp_min temp_max
        max_precip language,
      p.2 ∈ suggestionPool (pyLower weather_main_type) temp_min temp_max max_precip language ∨
      p.2 = suggestionFiller language := by
  unfold generate_activity_suggestions
  dsimp only
  by_cases hlen :
      3 < (suggestionPool (pyLower weather_main_type) temp_min temp_max max_precip language).length
  · rw [if_pos hlen]
    obtain ⟨hslen, hsmem⟩ := hs _ hlen
    constructor
    · simp [List.length_append, numberKeysFrom_length, List.length_map,
        List.length_range', hslen]
    · intro p hp
      rcases List.mem_append.mp hp with hp | hp
      · exact Or.inl (hsmem p.2 (numberKeysFrom_snd _ 1 p hp))
      · simp only [List.mem_map] at hp
        obtain ⟨i, _, hpe⟩ := hp
        exact Or.inr (congrArg Prod.snd hpe).symm
  · rw [if_neg hlen]
    have h3 : (suggestionPool (pyLower weather_main_type) temp_min temp_max max_precip
        language).length = 3 := le_antisymm (Nat.le_of_not_lt hlen) (pool_len _ _ _ _ _)
    constructor
    · simp [List.length_append, numberKeysFrom_length, List.length_map,
        List.length_range', h3]
    · intro p hp
      rcases List.mem_append.mp hp with hp | hp
      · exact Or.inl (numberKeysFrom_snd _ 1 p hp)
      · simp only [List.mem_map] at hp
        obtain ⟨i, _, hpe⟩ := hp
        exact Or.inr (congrArg Prod.snd hpe).symm

/-- Claim C7: for every weather summary and language tag, and for every
sampler honouring `random.sample`'s contract, `generate_activity_suggestions`
returns exactly 3 suggestions, all non-empty: the pool always holds 3 to 5
candidates, a pool above 3 is sampled down to 3 without replacement, and the
padding loop fills with the localized generic filler whenever fewer than 3
are selected. -/
theorem c7_three_suggestions (sample : List String → List String)
    (weather_main_type : String) (temp_min temp_max max_precip : ℚ)
    (language : String) (hs : sampleContract sample) :
    (generate_activity_suggestions sample weather_main_type temp_min temp_max
        max_precip language).length = 3 ∧
    ∀ p ∈ generate_activity_suggestions sample weather_main_type temp_min temp_max
        max_precip language, p.2 ≠ "" := by
  obtain ⟨hlen, hmem⟩ := gas_shape sample weather_main_type temp_min temp_max
    max_precip language hs
  refine ⟨hlen, fun p hp => ?_⟩
  rcases hmem p hp with h | h
  · exact isLi_ne_empty _ (pool_isLi _ _ _ _ _ _ h)
  · rw [h]
    exact isLi_ne_empty _ (filler_isLi language)

theorem c7_witness :
    (generate_activity_suggestions (fun l => l.take 3) "Clear" 10 35 60 "en").length = 3 ∧
    ∀ p ∈ generate_activity_suggestions (fun l => l.take 3) "Clear" 10 35 60 "en",
      p.2 ≠ "" :=
  c7_three_suggestions (fun l => l.take 3) "Clear" 10 35 60 "en"
    (fun l hl => ⟨by rw [List.length_take]; omega, fun s hs => List.take_subset 3 l hs⟩)

/-- Claim C10: every suggestion string returned by
`generate_activity_suggestions` — bucket candidates of both language
families, the conditional temperature/precipitation extras, and the generic
padding fillers — begins with "<li>" and ends with "</li>". -/
theorem c10_li_wrapped (sample : List String → List String)
    (weather_main_type : String) (temp_min temp_max max_precip : ℚ)
    (language : String) (hs : sampleContract sample) :
    ∀ p ∈ generate_activity_suggestions sample weather_main_type temp_min temp_max
        max_precip language, isLi p.2 = true := by
  obtain ⟨_, hmem⟩ := gas_shape sample weather_main_type temp_min temp_max
    max_precip language hs
  intro p hp
  rcases hmem p hp with h | h
  · exact pool_isLi _ _ _ _ _ _ h
  · rw [h]
    exact filler_isLi language

theorem c10_witness :
    ((generate_activity_suggestions (fun l => l.take 3) "Rain" 2 20 80 "zh-cn").all
      (fun p => isLi p.2)) = true := by
  rw [List.all_eq_true]
  intro p hp
  exact c10_li_wrapped (fun l => l.take 3) "Rain" 2 20 80 "zh-cn"
    (fun l hl => ⟨by rw [List.length_take]; omega, fun s hs => List.take_subset 3 l hs⟩) p hp



theorem lettersFor_spec (llm : String → String → Except String String) (w : JVal)
    (c : CityRec) :
    ∀ (bs bs2 : List Binding), lettersFor llm w c bs = .ok bs2 →
      List.Forall₂ (fun b b2 =>
        (¬(b.city = c ∧ b.is_active = true) → b2 = b) ∧
        ((b.city = c ∧ b.is_active = true) → ∃ l,
          generate_weather_letter w (some b.character) llm = .ok l ∧
          b2 = { b with weather_letter := some l })) bs bs2 := by
  intro bs
  induction bs with
  | nil =>
    intro bs2 h
    unfold lettersFor at h
    simp only [List.mapM_nil] at h
    cases h
    exact .nil
  | cons b rest ih =>
    intro bs2 h
    unfold lettersFor at h
    simp only [List.mapM_cons] at h
    by_cases hrel : b.city = c ∧ b.is_active = true
    · rw [if_pos hrel] at h
      cases hg : generate_weather_letter w (some b.character) llm with
      | error e =>
        rw [hg] at h
        simp only [bind, Except.bind] at h
        cases h
      | ok l =>
        rw [hg] at h
        cases hm : rest.mapM (fun b => if b.city = c ∧ b.is_active = true then do
            let l ← generate_weather_letter w (some b.character) llm
            pure { b with weather_letter := some l }
          else pure b) with
        | error e =>
          rw [hm] at h
          simp only [bind, Except.bind, pure, Except.pure] at h
          cases h
        | ok xs =>
          rw [hm] at h
          simp only [bind, Except.bind, pure, Except.pure, Except.ok.injEq] at h
          rw [← h]
          refine List.Forall₂.cons ⟨fun hn => absurd hrel hn, fun _ => ⟨l, hg, rfl⟩⟩ ?_
          exact ih xs hm
    · rw [if_neg hrel] at h
      cases hm : rest.mapM (fun b => if b.city = c ∧ b.is_active = true then do
          let l ← generate_weather_letter w (some b.character) llm
          pure { b with weather_letter := some l }
        else pure b) with
      | error e =>
        rw [hm] at h
        simp only [bind, Except.bind, pure, Except.pure] at h
        cases h
      | ok xs =>
        rw [hm] at h
        simp only [bind, Except.bind, pure, Except.pure, Except.ok.injEq] at h
        rw [← h]
        refine List.Forall₂.cons ⟨fun _ => rfl, fun hr => absurd hr hrel⟩ ?_
        exact ih xs hm

theorem uoc_filter_ne (city country c2 k2 : String) (d : SnapFields)
    (hne : ¬(city = c2 ∧ country = k2)) :
    ∀ rows : List SnapRow,
      ((update_or_create city country d rows).1.filter
        (fun r => r.city == c2 && r.country == k2)) =
      rows.filter (fun r => r.city == c2 && r.country == k2) := by
  intro rows
  induction rows with
  | nil =>
    simp only [update_or_create, List.filter]
    have : (city == c2 && country == k2) = false := by
      by_cases h1 : city = c2
      · have h2 : ¬(country = k2) := fun hc => hne ⟨h1, hc⟩
        simp [h1, h2]
      · simp [h1]
    simp [this]
  | cons r rs ih =>
    simp only [update_or_create]
    split_ifs with hk
    · have hpred : (r.city == c2 && r.country == k2) = false := by
        by_cases h1 : r.city = c2
        · have h2 : ¬(r.country = k2) := fun hc => hne ⟨hk.1 ▸ h1, hk.2 ▸ hc⟩
          simp [h1, h2]
        · simp [h1]
      simp [List.filter, hpred]
    · simp only [List.filter]
      cases hpred : (r.city == c2 && r.country == k2) <;> simp [hpred, ih]

theorem uoc_find (city country : String) (d : SnapFields) :
    ∀ rows : List SnapRow,
      ((update_or_create city country d rows).1.find?
        (fun r => r.city == city && r.country == country)) =
      some ⟨city, country, d⟩ := by
  intro rows
  induction rows with
  | nil => simp [update_or_create, List.find?]
  | cons r rs ih =>
    simp only [update_or_create]
    split_ifs with hk
    · obtain ⟨h1, h2⟩ := hk
      subst h1
      subst h2
      simp [List.find?]
    · have hpred : (r.city == city && r.country == country) = false := by
        by_cases h1 : r.city = city
        · have h2 : ¬(r.country = country) := fun hc => hk ⟨h1, hc⟩
          simp [h1, h2]
        · simp [h1]
      simp only [List.find?, hpred]
      exact ih


/-- Claim C8: in a refresh cycle over locations A and B where A's fetch
fails and B's succeeds, A's snapshot rows are untouched, every binding not
belonging to B keeps its narrative unchanged while B's active bindings get
the freshly generated letter, B's snapshot row carries the fetched data, and
the cycle's log lists exactly one failure — A's. -/
theorem c8_partial_failure (fetch : CityRec → Option JVal)
    (llm : String → String → Except String String) (dflt A B : CityRec)
    (db : WDb) (wB : JVal) (dB : SnapFields) (bs2 : List Binding)
    (hA : fetch A = none)
    (hB : fetch B = some wB)
    (hTr : truthy wB = true)
    (hSnap : snapFieldsOf wB = .ok dB)
    (hLet : lettersFor llm wB B db.bindings = .ok bs2)
    (hAB : ¬(B.name = A.name ∧ B.country = A.country)) :
    ((update_weather_data fetch llm dflt [A, B] db).1.snapshots.filter
        (fun r => r.city == A.name && r.country == A.country)) =
      db.snapshots.filter (fun r => r.city == A.name && r.country == A.country) ∧
    List.Forall₂ (fun b b2 =>
        (¬(b.city = B ∧ b.is_active = true) → b2 = b) ∧
        ((b.city = B ∧ b.is_active = true) → ∃ l,
          generate_weather_letter wB (some b.character) llm = .ok l ∧
          b2 = { b with weather_letter := some l }))
      db.bindings (update_weather_data fetch llm dflt [A, B] db).1.bindings ∧
    ((update_weather_data fetch llm dflt [A, B] db).1.snapshots.find?
        (fun r => r.city == B.name && r.country == B.country)) =
      some ⟨B.name, B.country, dB⟩ ∧
    ((update_weather_data fetch llm dflt [A, B] db).2.filter isFailEvent) =
      [.fetchFail A.name A.country] := by
  have hstepA : update_city_weather fetch llm db A = (db, .fetchFail A.name A.country) := by
    unfold update_city_weather
    rw [hA]
  have hstepB : update_city_weather fetch llm db B =
      ({ snapshots := (update_or_create B.name B.country dB db.snapshots).1,
         bindings := bs2 },
       .updated B.name B.country (update_or_create B.name B.country dB db.snapshots).2) := by
    unfold update_city_weather
    rw [hB]
    dsimp only
    rw [hTr]
    simp only [Bool.not_true, Bool.false_eq_true, if_false, hSnap, hLet]
  have hrun : update_weather_data fetch llm dflt [A, B] db =
      ({ snapshots := (update_or_create B.name B.country dB db.snapshots).1,
         bindings := bs2 },
       [.fetchFail A.name A.country,
        .updated B.name B.country (update_or_create B.name B.country dB db.snapshots).2]) := by
    unfold update_weather_data
    simp only [List.isEmpty_cons, List.foldl_cons, List.foldl_nil, Bool.false_eq_true,
      if_neg, ite_false]
    rw [hstepA]
    simp only []
    rw [hstepB]
    rfl
  rw [hrun]
  refine ⟨?_, ?_, ?_, ?_⟩
  · exact uoc_filter_ne B.name B.country A.name A.country dB hAB db.snapshots
  · exact lettersFor_spec llm wB B db.bindings bs2 hLet
  · exact uoc_find B.name B.country dB db.snapshots
  · rfl



theorem c8_witness :
    ((update_weather_data fetchC8 llmC8 cityA [cityA, cityB] dbC8).1.snapshots.filter
        (fun r => r.city == cityA.name && r.country == cityA.country)) =
      dbC8.snapshots.filter (fun r => r.city == cityA.name && r.country == cityA.country) ∧
    List.Forall₂ (fun b b2 =>
        (¬(b.city = cityB ∧ b.is_active = true) → b2 = b) ∧
        ((b.city = cityB ∧ b.is_active = true) → ∃ l,
          generate_weather_letter wBPayload (some b.character) llmC8 = .ok l ∧
          b2 = { b with weather_letter := some l }))
      dbC8.bindings (update_weather_data fetchC8 llmC8 cityA [cityA, cityB] dbC8).1.bindings ∧
    ((update_weather_data fetchC8 llmC8 cityA [cityA, cityB] dbC8).1.snapshots.find?
        (fun r => r.city == cityB.name && r.country == cityB.country)) =
      some ⟨cityB.name, cityB.country, dBFields⟩ ∧
    ((update_weather_data fetchC8 llmC8 cityA [cityA, cityB] dbC8).2.filter isFailEvent) =
      [.fetchFail cityA.name cityA.country] :=
  c8_partial_failure fetchC8 llmC8 cityA cityA cityB dbC8 wBPayload dBFields
    [⟨cityA, charE, some "old letter A", true⟩,
     ⟨cityB, charE, some "Weather letter unavailable. Error: timeout", true⟩]
    rfl rfl rfl rfl rfl (by decide)



theorem exOk_bind_pure {α β : Type} (e : Except String α) (g : α → β) :
    exOk (e >>= fun x => pure (g x)) = exOk e := by
  cases e <;> rfl

theorem mapM_cons_exOk {α β : Type} (f : α → Except String β) (b : α) (bs : List α) :
    exOk ((b :: bs).mapM f) = (exOk (f b) && exOk (bs.mapM f)) := by
  rw [List.mapM_cons]
  cases hf : f b <;> cases hm : bs.mapM f <;>
    simp [exOk, bind, Except.bind, pure, Except.pure, hf, hm]

theorem update_weather_data_fst (fetch : CityRec → Option JVal)
    (llm : String → String → Except String String) :
    ∀ (cs : List CityRec) (db : WDb) (evs : List UEvent),
      (cs.foldl (fun acc c =>
          let p := update_city_weather fetch llm acc.1 c
          (p.1, acc.2 ++ [p.2])) (db, evs)).1 = runCycleDb fetch llm cs db := by
  intro cs
  induction cs with
  | nil => intro db evs; rfl
  | cons c rest ih =>
    intro db evs
    simp only [List.foldl_cons, runCycleDb]
    exact ih _ _

theorem update_weather_data_cycle (fetch : CityRec → Option JVal)
    (llm : String → String → Except String String) (dflt : CityRec)
    (cities : List CityRec) (db : WDb) :
    (update_weather_data fetch llm dflt cities db).1 =
      runCycleDb fetch llm (if cities.isEmpty then [dflt] else cities) db := by
  unfold update_weather_data
  exact update_weather_data_fst fetch llm _ db []

theorem lettersFor_shape (llm : String → String → Except String String) (w : JVal)
    (c : CityRec) :
    ∀ (bs bs2 : List Binding), lettersFor llm w c bs = .ok bs2 →
      bs2.map bindingShape = bs.map bindingShape := by
  intro bs bs2 h
  have hf := lettersFor_spec llm w c bs bs2 h
  clear h
  induction hf with
  | nil => rfl
  | cons hab htail ih =>
    rename_i a b l1 l2
    simp only [List.map_cons, ih]
    congr 1
    by_cases hrel : a.city = c ∧ a.is_active = true
    · obtain ⟨l, _, hb2⟩ := hab.2 hrel
      rw [hb2]
      rfl
    · rw [hab.1 hrel]

theorem step_not_writes (fetch : CityRec → Option JVal)
    (llm : String → String → Except String String) (db : WDb) (c : CityRec)
    (hw : cityWrites fetch llm db.bindings c = false) :
    (update_city_weather fetch llm db c).1 = db := by
  unfold update_city_weather
  unfold cityWrites at hw
  cases hf : fetch c with
  | none => rfl
  | some w =>
    rw [hf] at hw
    dsimp only at hw
    dsimp only
    cases ht : truthy w with
    | false => rfl
    | true =>
      rw [ht] at hw
      simp only [Bool.not_true, Bool.false_eq_true, if_false]
      cases hs : snapFieldsOf w with
      | error e => rfl
      | ok d =>
        rw [hs] at hw
        cases hl : lettersFor llm w c db.bindings with
        | error e => rfl
        | ok bs2 =>
          rw [hl] at hw
          simp [exOk] at hw

theorem step_writes (fetch : CityRec → Option JVal)
    (llm : String → String → Except String String) (db : WDb) (c : CityRec)
    (hw : cityWrites fetch llm db.bindings c = true) :
    ∃ w d bs2, fetch c = some w ∧ snapFieldsOf w = .ok d ∧
      lettersFor llm w c db.bindings = .ok bs2 ∧
      (update_city_weather fetch llm db c).1 =
        ⟨(update_or_create c.name c.country d db.snapshots).1, bs2⟩ := by
  unfold update_city_weather
  unfold cityWrites at hw
  cases hf : fetch c with
  | none => rw [hf] at hw; cases hw
  | some w =>
    rw [hf] at hw
    dsimp only at hw
    cases ht : truthy w with
    | false => rw [ht] at hw; simp at hw
    | true =>
      rw [ht] at hw
      cases hs : snapFieldsOf w with
      | error e => rw [hs] at hw; simp [exOk] at hw
      | ok d =>
        rw [hs] at hw
        cases hl : lettersFor llm w c db.bindings with
        | error e => rw [hl] at hw; simp [exOk] at hw
        | ok bs2 =>
          refine ⟨w, d, bs2, rfl, hs, hl, ?_⟩
          dsimp only
          rw [ht]
          simp only [Bool.not_true, Bool.false_eq_true, if_false, hs, hl]

theorem step_shape (fetch : CityRec → Option JVal)
    (llm : String → String → Except String String) (db : WDb) (c : CityRec) :
    ((update_city_weather fetch llm db c).1.bindings).map bindingShape =
      db.bindings.map bindingShape := by
  cases hw : cityWrites fetch llm db.bindings c with
  | false => rw [step_not_writes fetch llm db c hw]
  | true =>
    obtain ⟨w, d, bs2, _, _, hl, hstep⟩ := step_writes fetch llm db c hw
    rw [hstep]
    exact lettersFor_shape llm w c db.bindings bs2 hl

theorem lettersFor_ok_shape (llm : String → String → Except String String)
    (w : JVal) (c : CityRec) :
    ∀ (bs1 bs2 : List Binding), bs1.map bindingShape = bs2.map bindingShape →
      exOk (lettersFor llm w c bs1) = exOk (lettersFor llm w c bs2) := by
  intro bs1
  induction bs1 with
  | nil =>
    intro bs2 h
    cases bs2 with
    | nil => rfl
    | cons b2 r2 => simp at h
  | cons b1 r1 ih =>
    intro bs2 h
    cases bs2 with
    | nil => simp at h
    | cons b2 r2 =>
      simp only [List.map_cons, List.cons.injEq] at h
      obtain ⟨hb, hr⟩ := h
      unfold lettersFor
      rw [mapM_cons_exOk, mapM_cons_exOk]
      have hcity : b1.city = b2.city := congrArg (fun p => p.1) hb
      have hchar : b1.character = b2.character := congrArg (fun p => p.2.1) hb
      have hact : b1.is_active = b2.is_active := congrArg (fun p => p.2.2) hb
      have htl := ih r2 hr
      unfold lettersFor at htl
      rw [htl]
      congr 1
      by_cases hrel : b1.city = c ∧ b1.is_active = true
      · rw [if_pos hrel, if_pos (by rw [← hcity, ← hact]; exact hrel)]
        rw [exOk_bind_pure, exOk_bind_pure, hchar]
      · rw [if_neg hrel, if_neg (by rw [← hcity, ← hact]; exact hrel)]
        rfl

theorem cityWrites_shape (fetch : CityRec → Option JVal)
    (llm : String → String → Except String String) (bs1 bs2 : List Binding)
    (c : CityRec) (h : bs1.map bindingShape = bs2.map bindingShape) :
    cityWrites fetch llm bs1 c = cityWrites fetch llm bs2 c := by
  unfold cityWrites
  cases fetch c with
  | none => rfl
  | some w =>
    dsimp only
    rw [lettersFor_ok_shape llm w c bs1 bs2 h]

theorem cycle_shape (fetch : CityRec → Option JVal)
    (llm : String → String → Except String String) :
    ∀ (cs : List CityRec) (db : WDb),
      (runCycleDb fetch llm cs db).bindings.map bindingShape =
        db.bindings.map bindingShape := by
  intro cs
  induction cs with
  | nil => intro db; rfl
  | cons c rest ih =>
    intro db
    unfold runCycleDb
    simp only [List.foldl_cons]
    have := ih ((update_city_weather fetch llm db c).1)
    unfold runCycleDb at this
    rw [this]
    exact step_shape fetch llm db c


theorem hasKey_uoc_self (c k : String) (d : SnapFields) :
    ∀ rows : List SnapRow, hasKey c k (update_or_create c k d rows).1 = true := by
  intro rows
  induction rows with
  | nil => simp [update_or_create, hasKey]
  | cons r rs ih =>
    simp only [update_or_create]
    split_ifs with hk
    · simp [hasKey, hk.1, hk.2]
    · simp only [hasKey, List.any_cons, Bool.or_eq_true]
      right
      exact ih

theorem hasKey_uoc_mono (n k c c2 : String) (d : SnapFields) :
    ∀ rows : List SnapRow, hasKey n k rows = true →
      hasKey n k (update_or_create c c2 d rows).1 = true := by
  intro rows
  induction rows with
  | nil => intro h; simp [hasKey] at h
  | cons r rs ih =>
    intro h
    simp only [hasKey, List.any_cons, Bool.or_eq_true] at h
    simp only [update_or_create]
    split_ifs with hk
    · simp only [hasKey, List.any_cons, Bool.or_eq_true]
      rcases h with h | h
      · left; exact h
      · right; simpa [hasKey] using h
    · simp only [hasKey, List.any_cons, Bool.or_eq_true]
      rcases h with h | h
      · left; exact h
      · right
        have := ih (by simpa [hasKey] using h)
        simpa [hasKey] using this

theorem step_hasKey_mono (fetch : CityRec → Option JVal)
    (llm : String → String → Except String String) (db : WDb) (c : CityRec)
    (n k : String) (h : hasKey n k db.snapshots = true) :
    hasKey n k (update_city_weather fetch llm db c).1.snapshots = true := by
  cases hw : cityWrites fetch llm db.bindings c with
  | false => rw [step_not_writes fetch llm db c hw]; exact h
  | true =>
    obtain ⟨w, d, bs2, _, _, _, hstep⟩ := step_writes fetch llm db c hw
    rw [hstep]
    exact hasKey_uoc_mono n k c.name c.country d db.snapshots h

theorem cycle_hasKey_mono (fetch : CityRec → Option JVal)
    (llm : String → String → Except String String) :
    ∀ (cs : List CityRec) (db : WDb) (n k : String),
      hasKey n k db.snapshots = true →
      hasKey n k (runCycleDb fetch llm cs db).snapshots = true := by
  intro cs
  induction cs with
  | nil => intro db n k h; exact h
  | cons c rest ih =>
    intro db n k h
    unfold runCycleDb
    simp only [List.foldl_cons]
    have step := step_hasKey_mono fetch llm db c n k h
    have := ih ((update_city_weather fetch llm db c).1) n k step
    unfold runCycleDb at this
    exact this

theorem cycle_covers (fetch : CityRec → Option JVal)
    (llm : String → String → Except String String) :
    ∀ (cs : List CityRec) (db : WDb) (c0 : CityRec), c0 ∈ cs →
      cityWrites fetch llm db.bindings c0 = true →
      hasKey c0.name c0.country (runCycleDb fetch llm cs db).snapshots = true := by
  intro cs
  induction cs with
  | nil => intro db c0 h; simp at h
  | cons c rest ih =>
    intro db c0 hmem hw
    unfold runCycleDb
    simp only [List.foldl_cons]
    rcases List.mem_cons.mp hmem with rfl | hmem2
    · obtain ⟨w, d, bs2, _, _, _, hstep⟩ := step_writes fetch llm db c0 hw
      have hself : hasKey c0.name c0.country (update_city_weather fetch llm db c0).1.snapshots = true := by
        rw [hstep]
        exact hasKey_uoc_self c0.name c0.country d db.snapshots
      have := cycle_hasKey_mono fetch llm rest ((update_city_weather fetch llm db c0).1)
        c0.name c0.country hself
      unfold runCycleDb at this
      exact this
    · have hw2 : cityWrites fetch llm ((update_city_weather fetch llm db c).1.bindings) c0 = true := by
        rw [cityWrites_shape fetch llm _ db.bindings c0 (step_shape fetch llm db c)]
        exact hw
      have := ih ((update_city_weather fetch llm db c).1) c0 hmem2 hw2
      unfold runCycleDb at this
      exact this

theorem uoc_len_of_hasKey (c k : String) (d : SnapFields) :
    ∀ rows : List SnapRow, hasKey c k rows = true →
      (update_or_create c k d rows).1.length = rows.length := by
  intro rows
  induction rows with
  | nil => intro h; simp [hasKey] at h
  | cons r rs ih =>
    intro h
    simp only [update_or_create]
    split_ifs with hk
    · simp
    · simp only [hasKey, List.any_cons, Bool.or_eq_true] at h
      rcases h with h | h
      · exfalso
        apply hk
        constructor
        · exact (by simpa using (Bool.and_elim_left h) : r.city = c)
        · exact (by simpa using (Bool.and_elim_right h) : r.country = k)
      · simp only [List.length_cons]
        rw [ih (by simpa [hasKey] using h)]

theorem step_len_of_covered (fetch : CityRec → Option JVal)
    (llm : String → String → Except String String) (db : WDb) (c : CityRec)
    (h : cityWrites fetch llm db.bindings c = true →
      hasKey c.name c.country db.snapshots = true) :
    (update_city_weather fetch llm db c).1.snapshots.length = db.snapshots.length := by
  cases hw : cityWrites fetch llm db.bindings c with
  | false => rw [step_not_writes fetch llm db c hw]
  | true =>
    obtain ⟨w, d, bs2, _, _, _, hstep⟩ := step_writes fetch llm db c hw
    rw [hstep]
    exact uoc_len_of_hasKey c.name c.country d db.snapshots (h hw)

theorem cycle_len_of_covered (fetch : CityRec → Option JVal)
    (llm : String → String → Except String String) :
    ∀ (cs : List CityRec) (db : WDb),
      (∀ c ∈ cs, cityWrites fetch llm db.bindings c = true →
        hasKey c.name c.country db.snapshots = true) →
      (runCycleDb fetch llm cs db).snapshots.length = db.snapshots.length := by
  intro cs
  induction cs with
  | nil => intro db _; rfl
  | cons c rest ih =>
    intro db h
    unfold runCycleDb
    simp only [List.foldl_cons]
    have hstep : (update_city_weather fetch llm db c).1.snapshots.length = db.snapshots.length :=
      step_len_of_covered fetch llm db c (h c (List.mem_cons_self ..))
    have hrest : ∀ c0 ∈ rest,
        cityWrites fetch llm ((update_city_weather fetch llm db c).1.bindings) c0 = true →
        hasKey c0.name c0.country ((update_city_weather fetch llm db c).1.snapshots) = true := by
      intro c0 hc0 hw0
      have hw1 : cityWrites fetch llm db.bindings c0 = true := by
        rw [← cityWrites_shape fetch llm _ db.bindings c0 (step_shape fetch llm db c)]
        exact hw0
      exact step_hasKey_mono fetch llm db c c0.name c0.country
        (h c0 (List.mem_cons_of_mem c hc0) hw1)
    have := ih ((update_city_weather fetch llm db c).1) hrest
    unfold runCycleDb at this
    rw [this, hstep]


theorem hasKey_false_not_mem (c k : String) :
    ∀ rows : List SnapRow, hasKey c k rows = false → (c, k) ∉ rows.map rowKey := by
  intro rows
  induction rows with
  | nil => intro _ h; simp at h
  | cons r rs ih =>
    intro h
    simp only [hasKey, List.any_cons, Bool.or_eq_false_iff] at h
    obtain ⟨h1, h2⟩ := h
    simp only [List.map_cons, List.mem_cons, not_or]
    constructor
    · intro hEq
      rw [rowKey] at hEq
      have hc : r.city = c := (Prod.mk.injEq .. ▸ hEq.symm).1
      have hk2 : r.country = k := (Prod.mk.injEq .. ▸ hEq.symm).2
      simp [hc, hk2] at h1
    · exact ih (by simpa [hasKey] using h2)

theorem uoc_keys_of_hasKey (c k : String) (d : SnapFields) :
    ∀ rows : List SnapRow, hasKey c k rows = true →
      (update_or_create c k d rows).1.map rowKey = rows.map rowKey := by
  intro rows
  induction rows with
  | nil => intro h; simp [hasKey] at h
  | cons r rs ih =>
    intro h
    simp only [update_or_create]
    split_ifs with hk
    · simp [rowKey]
    · simp only [hasKey, List.any_cons, Bool.or_eq_true] at h
      rcases h with h | h
      · exfalso
        apply hk
        exact ⟨by simpa using (Bool.and_elim_left h), by simpa using (Bool.and_elim_right h)⟩
      · simp only [List.map_cons]
        rw [ih (by simpa [hasKey] using h)]

theorem uoc_keys_of_not (c k : String) (d : SnapFields) :
    ∀ rows : List SnapRow, hasKey c k rows = false →
      (update_or_create c k d rows).1.map rowKey = rows.map rowKey ++ [(c, k)] := by
  intro rows
  induction rows with
  | nil => intro _; simp [update_or_create, rowKey]
  | cons r rs ih =>
    intro h
    simp only [hasKey, List.any_cons, Bool.or_eq_false_iff] at h
    obtain ⟨h1, h2⟩ := h
    simp only [update_or_create]
    split_ifs with hk
    · exfalso
      simp [hk.1, hk.2] at h1
    · simp only [List.map_cons, List.cons_append]
      rw [ih (by simpa [hasKey] using h2)]

theorem uoc_nodup (c k : String) (d : SnapFields) (rows : List SnapRow)
    (hnd : keysNodup rows) : keysNodup (update_or_create c k d rows).1 := by
  cases hh : hasKey c k rows with
  | true =>
    unfold keysNodup
    rw [uoc_keys_of_hasKey c k d rows hh]
    exact hnd
  | false =>
    unfold keysNodup
    rw [uoc_keys_of_not c k d rows hh]
    rw [← List.concat_eq_append]
    exact List.Nodup.concat (hasKey_false_not_mem c k rows hh) hnd

theorem step_nodup (fetch : CityRec → Option JVal)
    (llm : String → String → Except String String) (db : WDb) (c : CityRec)
    (hnd : keysNodup db.snapshots) :
    keysNodup (update_city_weather fetch llm db c).1.snapshots := by
  cases hw : cityWrites fetch llm db.bindings c with
  | false => rw [step_not_writes fetch llm db c hw]; exact hnd
  | true =>
    obtain ⟨w, d, bs2, _, _, _, hstep⟩ := step_writes fetch llm db c hw
    rw [hstep]
    exact uoc_nodup c.name c.country d db.snapshots hnd

theorem cycle_nodup (fetch : CityRec → Option JVal)
    (llm : String → String → Except String String) :
    ∀ (cs : List CityRec) (db : WDb), keysNodup db.snapshots →
      keysNodup (runCycleDb fetch llm cs db).snapshots := by
  intro cs
  induction cs with
  | nil => intro db h; exact h
  | cons c rest ih =>
    intro db h
    unfold runCycleDb
    simp only [List.foldl_cons]
    have := ih ((update_city_weather fetch llm db c).1) (step_nodup fetch llm db c h)
    unfold runCycleDb at this
    exact this

/-- Claim C9: running the refresh cycle twice with identical upstream
payloads (the same fetch oracle) leaves the WeatherSnapshot row count
unchanged — the second cycle's `update_or_create` hits existing
(city, country) keys and updates in place — and never creates duplicate
rows for the same key. -/
theorem c9_idempotent (fetch : CityRec → Option JVal)
    (llm : String → String → Except String String) (dflt : CityRec)
    (cities : List CityRec) (db : WDb) (hnd : keysNodup db.snapshots) :
    (update_weather_data fetch llm dflt cities
        (update_weather_data fetch llm dflt cities db).1).1.snapshots.length =
      (update_weather_data fetch llm dflt cities db).1.snapshots.length ∧
    keysNodup (update_weather_data fetch llm dflt cities
        (update_weather_data fetch llm dflt cities db).1).1.snapshots := by
  rw [update_weather_data_cycle, update_weather_data_cycle]
  constructor
  · apply cycle_len_of_covered
    intro c hc hw
    have hw0 : cityWrites fetch llm db.bindings c = true := by
      rw [← cityWrites_shape fetch llm _ db.bindings c
        (cycle_shape fetch llm (if cities.isEmpty then [dflt] else cities) db)]
      exact hw
    exact cycle_covers fetch llm _ db c hc hw0
  · exact cycle_nodup fetch llm _ _ (cycle_nodup fetch llm _ _ hnd)

theorem c9_witness :
    (update_weather_data fetchC8 llmC8 cityA [cityA, cityB]
        (update_weather_data fetchC8 llmC8 cityA [cityA, cityB] dbC8).1).1.snapshots.length =
      (update_weather_data fetchC8 llmC8 cityA [cityA, cityB] dbC8).1.snapshots.length ∧
    keysNodup (update_weather_data fetchC8 llmC8 cityA [cityA, cityB]
        (update_weather_data fetchC8 llmC8 cityA [cityA, cityB] dbC8).1).1.snapshots :=
  c9_idempotent fetchC8 llmC8 cityA [cityA, cityB] dbC8 (by unfold keysNodup; decide)


end Webapp
